import Mathlib

/-!
# sdl2-compat: event translation and the event filter/watcher registry

A shallow embedding of `src/sdl2_compat.c`.

* `Layout`: the C object layout of the SDL2 event structs and of the
  `SDL2_Event` union, computed from the declarations (sizes and alignments).
* `SDL2_Event`, `SDL_Event`, `Event3to2`, `Event2to3`: the two event formats
  and the converters between them.
* `Registry`, `EventFilter3to2`, `SDL_AddEventWatch`: the single legacy filter,
  the watcher list and the dispatch hook installed into the underlying library.
* `SDL2Compat_ApplyQuirks`: the per-executable environment overrides.
* `Shim`, `LoadSDL3`, `UnloadSDL3`: binding the symbols of the underlying
  library at load time and releasing them.
* `SDL_GetVersion`, the gamma functions, `SDL_CreateRGBSurface` and
  `SDL_PeepEvents`: the remaining overrides the properties below are about.

Machine integers are natural numbers with an explicit `% 2 ^ w` wherever the C
code narrows or can wrap.  Pointers are natural numbers, `0` being `NULL`.
-/

namespace Sdl2Compat

/-! ## C object layout -/

/-- Size and alignment of a C object type, in bytes. -/
structure CType where
  size : Nat
  align : Nat
deriving DecidableEq, Repr

/-- Round the offset `off` up to the next multiple of `a`. -/
def alignUp (off a : Nat) : Nat := (off + a - 1) / a * a

/-- Offset just past the last member when the members are placed in
declaration order starting at `off`, each at its natural alignment. -/
def structEnd : List CType → Nat → Nat
  | [], off => off
  | t :: ts, off => structEnd ts (alignUp off t.align + t.size)

/-- Strictest alignment among the members. -/
def maxAlign : List CType → Nat
  | [] => 1
  | t :: ts => max t.align (maxAlign ts)

/-- Largest size among the members. -/
def maxSize : List CType → Nat
  | [] => 0
  | t :: ts => max t.size (maxSize ts)

/-- The type `struct { members }`: members in order, tail padding up to the
strictest member alignment. -/
def CType.struct (members : List CType) : CType :=
  ⟨alignUp (structEnd members 0) (maxAlign members), maxAlign members⟩

/-- The type `union { members }`: as large as its largest member, padded up
to the strictest member alignment. -/
def CType.union (members : List CType) : CType :=
  ⟨alignUp (maxSize members) (maxAlign members), maxAlign members⟩

/-- The type `t[n]`. -/
def CType.array (t : CType) (n : Nat) : CType := ⟨t.size * n, t.align⟩

namespace Layout

def Uint8 : CType := ⟨1, 1⟩
def char : CType := ⟨1, 1⟩
def Sint16 : CType := ⟨2, 2⟩
def Uint16 : CType := ⟨2, 2⟩
def Sint32 : CType := ⟨4, 4⟩
def Uint32 : CType := ⟨4, 4⟩
def float : CType := ⟨4, 4⟩
def Sint64 : CType := ⟨8, 8⟩
def Uint64 : CType := ⟨8, 8⟩

/-- A data pointer (`void *`, `char *`, `SDL2_SysWMmsg *`) on a target whose
pointers are `ptr` bytes wide. -/
def pointer (ptr : Nat) : CType := ⟨ptr, ptr⟩

/-- Modelled from the spec: the typedef `SDL_JoystickID` comes from the SDL
headers, which are not part of this source; it is a 32-bit integer there. -/
def SDL_JoystickID : CType := Sint32

/-- Modelled from the spec: the enum `SDL_JoystickPowerLevel` comes from the
SDL headers, which are not part of this source; an enum is an `int`. -/
def SDL_JoystickPowerLevel : CType := Sint32

/-- Modelled from the spec: the typedef `SDL_TouchID` comes from the SDL
headers, which are not part of this source; it is a 64-bit integer there. -/
def SDL_TouchID : CType := Sint64

/-- Modelled from the spec: the typedef `SDL_FingerID` comes from the SDL
headers, which are not part of this source; it is a 64-bit integer there. -/
def SDL_FingerID : CType := Sint64

/-- Modelled from the spec: the typedef `SDL_GestureID` comes from the SDL
headers, which are not part of this source; it is a 64-bit integer there. -/
def SDL_GestureID : CType := Sint64

/-- Modelled from the spec: the struct `SDL_Keysym` comes from the SDL
headers, which are not part of this source; there it is
`{ SDL_Scancode scancode; SDL_Keycode sym; Uint16 mod; Uint32 unused; }`,
an enum, a 32-bit integer, a 16-bit and a 32-bit integer. -/
def SDL_Keysym : CType := CType.struct [Sint32, Sint32, Uint16, Uint32]

def SDL2_CommonEvent : CType := CType.struct [Uint32, Uint32]

def SDL2_DisplayEvent : CType :=
  CType.struct [Uint32, Uint32, Uint32, Uint8, Uint8, Uint8, Uint8, Sint32]

def SDL2_WindowEvent : CType :=
  CType.struct [Uint32, Uint32, Uint32, Uint8, Uint8, Uint8, Uint8, Sint32, Sint32]

def SDL2_KeyboardEvent : CType :=
  CType.struct [Uint32, Uint32, Uint32, Uint8, Uint8, Uint8, Uint8, SDL_Keysym]

def SDL2_TEXTEDITINGEVENT_TEXT_SIZE : Nat := 32

def SDL2_TextEditingEvent : CType :=
  CType.struct [Uint32, Uint32, Uint32, char.array SDL2_TEXTEDITINGEVENT_TEXT_SIZE,
    Sint32, Sint32]

def SDL2_TextEditingExtEvent (ptr : Nat) : CType :=
  CType.struct [Uint32, Uint32, Uint32, pointer ptr, Sint32, Sint32]

def SDL2_TEXTINPUTEVENT_TEXT_SIZE : Nat := 32

def SDL2_TextInputEvent : CType :=
  CType.struct [Uint32, Uint32, Uint32, char.array SDL2_TEXTINPUTEVENT_TEXT_SIZE]

def SDL2_MouseMotionEvent : CType :=
  CType.struct [Uint32, Uint32, Uint32, Uint32, Uint32, Sint32, Sint32, Sint32, Sint32]

def SDL2_MouseButtonEvent : CType :=
  CType.struct [Uint32, Uint32, Uint32, Uint32, Uint8, Uint8, Uint8, Uint8, Sint32, Sint32]

def SDL2_MouseWheelEvent : CType :=
  CType.struct [Uint32, Uint32, Uint32, Uint32, Sint32, Sint32, Uint32, float, float,
    Sint32, Sint32]

def SDL2_JoyAxisEvent : CType :=
  CType.struct [Uint32, Uint32, SDL_JoystickID, Uint8, Uint8, Uint8, Uint8, Sint16, Uint16]

def SDL2_JoyBallEvent : CType :=
  CType.struct [Uint32, Uint32, SDL_JoystickID, Uint8, Uint8, Uint8, Uint8, Sint16, Sint16]

def SDL2_JoyHatEvent : CType :=
  CType.struct [Uint32, Uint32, SDL_JoystickID, Uint8, Uint8, Uint8, Uint8]

def SDL2_JoyButtonEvent : CType :=
  CType.struct [Uint32, Uint32, SDL_JoystickID, Uint8, Uint8, Uint8, Uint8]

def SDL2_JoyDeviceEvent : CType := CType.struct [Uint32, Uint32, Sint32]

def SDL2_JoyBatteryEvent : CType :=
  CType.struct [Uint32, Uint32, SDL_JoystickID, SDL_JoystickPowerLevel]

def SDL2_ControllerAxisEvent : CType :=
  CType.struct [Uint32, Uint32, SDL_JoystickID, Uint8, Uint8, Uint8, Uint8, Sint16, Uint16]

def SDL2_ControllerButtonEvent : CType :=
  CType.struct [Uint32, Uint32, SDL_JoystickID, Uint8, Uint8, Uint8, Uint8]

def SDL2_ControllerDeviceEvent : CType := CType.struct [Uint32, Uint32, Sint32]

def SDL2_ControllerTouchpadEvent : CType :=
  CType.struct [Uint32, Uint32, SDL_JoystickID, Sint32, Sint32, float, float, float]

def SDL2_ControllerSensorEvent : CType :=
  CType.struct [Uint32, Uint32, SDL_JoystickID, Sint32, float.array 3, Uint64]

def SDL2_AudioDeviceEvent : CType :=
  CType.struct [Uint32, Uint32, Uint32, Uint8, Uint8, Uint8, Uint8]

def SDL2_TouchFingerEvent : CType :=
  CType.struct [Uint32, Uint32, SDL_TouchID, SDL_FingerID, float, float, float, float,
    float, Uint32]

def SDL2_MultiGestureEvent : CType :=
  CType.struct [Uint32, Uint32, SDL_TouchID, float, float, float, float, Uint16, Uint16]

def SDL2_DollarGestureEvent : CType :=
  CType.struct [Uint32, Uint32, SDL_TouchID, SDL_GestureID, Uint32, float, float, float]

def SDL2_DropEvent (ptr : Nat) : CType :=
  CType.struct [Uint32, Uint32, pointer ptr, Uint32]

def SDL2_SensorEvent : CType :=
  CType.struct [Uint32, Uint32, Sint32, float.array 6, Uint64]

def SDL2_QuitEvent : CType := CType.struct [Uint32, Uint32]

def SDL2_OSEvent : CType := CType.struct [Uint32, Uint32]

def SDL2_UserEvent (ptr : Nat) : CType :=
  CType.struct [Uint32, Uint32, Uint32, Sint32, pointer ptr, pointer ptr]

def SDL2_SysWMEvent (ptr : Nat) : CType :=
  CType.struct [Uint32, Uint32, pointer ptr]

/-- The member `Uint8 padding[sizeof(void *) <= 8 ? 56 : sizeof(void *) == 16 ? 64 :
3 * sizeof(void *)]` of the union. -/
def SDL2_Event_padding (ptr : Nat) : CType :=
  Uint8.array (if ptr ≤ 8 then 56 else if ptr = 16 then 64 else 3 * ptr)

/-- The event structs that are members of `union SDL2_Event`, in declaration
order (`common` ... `drop`). -/
def SDL2_Event_variants (ptr : Nat) : List CType :=
  [SDL2_CommonEvent, SDL2_DisplayEvent, SDL2_WindowEvent, SDL2_KeyboardEvent,
   SDL2_TextEditingEvent, SDL2_TextEditingExtEvent ptr, SDL2_TextInputEvent,
   SDL2_MouseMotionEvent, SDL2_MouseButtonEvent, SDL2_MouseWheelEvent,
   SDL2_JoyAxisEvent, SDL2_JoyBallEvent, SDL2_JoyHatEvent, SDL2_JoyButtonEvent,
   SDL2_JoyDeviceEvent, SDL2_JoyBatteryEvent, SDL2_ControllerAxisEvent,
   SDL2_ControllerButtonEvent, SDL2_ControllerDeviceEvent, SDL2_ControllerTouchpadEvent,
   SDL2_ControllerSensorEvent, SDL2_AudioDeviceEvent, SDL2_SensorEvent, SDL2_QuitEvent,
   SDL2_UserEvent ptr, SDL2_SysWMEvent ptr, SDL2_TouchFingerEvent, SDL2_MultiGestureEvent,
   SDL2_DollarGestureEvent, SDL2_DropEvent ptr]

/-- The type `union SDL2_Event`: the tag, every event struct, and the padding array. -/
def SDL2_Event (ptr : Nat) : CType :=
  CType.union (Uint32 :: SDL2_Event_variants ptr ++ [SDL2_Event_padding ptr])

end Layout

/-- The value of `sizeof (SDL2_Event)` for pointers of `ptr` bytes. -/
def sizeof_SDL2_Event (ptr : Nat) : Nat := (Layout.SDL2_Event ptr).size

/-- The value of `sizeof (SDL2_CommonEvent)`. -/
def sizeof_SDL2_CommonEvent : Nat := Layout.SDL2_CommonEvent.size

/-! ## Events -/

/-- Sizes the build takes from outside this file: the pointer width of the
target and the sizes of the SDL3 header types `SDL_Event` and
`SDL_CommonEvent`.  The header is a member of the SDL3 event union, so it is
not larger than the union and `sizeof (SDL_Event) - sizeof (SDL_CommonEvent)`
does not wrap. -/
structure Target where
  ptrSize : Nat
  sizeof_SDL_Event : Nat
  sizeof_SDL_CommonEvent : Nat
  common_le : sizeof_SDL_CommonEvent ≤ sizeof_SDL_Event

/-- A 64-bit target built against SDL3 headers whose event union is 128
bytes with a 16-byte common header. -/
def target64 : Target := ⟨8, 128, 16, by decide⟩

/-- Memory seen from an address: the byte stored at each offset from it. -/
abbrev Bytes := Nat → Nat

/-- Modelled from the spec: `SDL3_memcpy` is a symbol of the underlying
library, not part of this source; it is the bulk copy of the first `n` bytes
at `src` over the first `n` bytes at `dst`, every other byte at `dst` staying
as it was. -/
def SDL3_memcpy (dst src : Bytes) (n : Nat) : Bytes :=
  fun i => if i < n then src i else dst i

/-- Modelled from the spec: the macro `SDL_NS_TO_MS` comes from the SDL3
headers, which are not part of this source; nanoseconds are integer-divided
to milliseconds. -/
def SDL_NS_TO_MS (ns : Nat) : Nat := ns / 1000000

/-- Modelled from the spec: the macro `SDL_MS_TO_NS` comes from the SDL3
headers, which are not part of this source; milliseconds are widened to 64
bits and multiplied to nanoseconds, in 64-bit arithmetic and with no overflow
check. -/
def SDL_MS_TO_NS (ms : Nat) : Nat := (ms % 2 ^ 64) * 1000000 % 2 ^ 64

/-- The header `struct SDL2_CommonEvent { Uint32 type; Uint32 timestamp; }`. -/
structure SDL2_CommonEvent where
  type : Nat
  timestamp : Nat
deriving DecidableEq, Repr

/-- A legacy event as the converters see it: the header, and the memory at
`(&event->common) + 1`.  The first
`sizeof (SDL2_Event) - sizeof (SDL2_CommonEvent)` bytes of `payload` belong
to the union; later offsets are whatever follows the object in memory. -/
structure SDL2_Event where
  common : SDL2_CommonEvent
  payload : Bytes

/-- The union member `type`, which overlays `common.type`. -/
def SDL2_Event.type (e : SDL2_Event) : Nat := e.common.type

/-- Modelled from the spec: the SDL3 header struct `SDL_CommonEvent` is not
part of this source; the current header is a 32-bit tag and a 64-bit
timestamp in nanoseconds. -/
structure SDL_CommonEvent where
  type : Nat
  timestamp : Nat
deriving DecidableEq, Repr

/-- Modelled from the spec: the SDL3 header union `SDL_Event` is not part of
this source; as the converters see it, it is the header and the memory at
`(&event->common) + 1`, of which the first
`sizeof (SDL_Event) - sizeof (SDL_CommonEvent)` bytes belong to the union. -/
structure SDL_Event where
  common : SDL_CommonEvent
  payload : Bytes

/-- The union member `type`, which overlays `common.type`. -/
def SDL_Event.type (e : SDL_Event) : Nat := e.common.type

/-- A legacy event has 32-bit header fields and byte-sized payload cells. -/
def SDL2_Event.WellFormed (e : SDL2_Event) : Prop :=
  e.common.type < 2 ^ 32 ∧ e.common.timestamp < 2 ^ 32 ∧ ∀ i, e.payload i < 256

/-- A current event has a 32-bit tag, a 64-bit timestamp and byte-sized
payload cells. -/
def SDL_Event.WellFormed (e : SDL_Event) : Prop :=
  e.common.type < 2 ^ 32 ∧ e.common.timestamp < 2 ^ 64 ∧ ∀ i, e.payload i < 256

/-- Number of bytes `Event3to2` copies after the header:
`sizeof (SDL2_Event) - sizeof (SDL2_CommonEvent)`. -/
def Event3to2_count (T : Target) : Nat :=
  sizeof_SDL2_Event T.ptrSize - sizeof_SDL2_CommonEvent

/-- Number of bytes `Event2to3` copies after the header:
`sizeof (SDL_Event) - sizeof (SDL_CommonEvent)`. -/
def Event2to3_count (T : Target) : Nat :=
  T.sizeof_SDL_Event - T.sizeof_SDL_CommonEvent

/-- The function `Event3to2(event3, event2)`: the contents of `*event2` on return (the
function returns `event2` itself).  `event2` on entry is whatever the output
buffer held.
```
event2->common.type = event3->type;
event2->common.timestamp = (Uint32) SDL_NS_TO_MS(event3->common.timestamp);
SDL3_memcpy((&event2->common) + 1, (&event3->common) + 1,
            sizeof (SDL2_Event) - sizeof (SDL2_CommonEvent));
``` -/
def Event3to2 (T : Target) (event3 : SDL_Event) (event2 : SDL2_Event) : SDL2_Event :=
  { common :=
      { type := event3.type
        timestamp := SDL_NS_TO_MS event3.common.timestamp % 2 ^ 32 }
    payload := SDL3_memcpy event2.payload event3.payload (Event3to2_count T) }

/-- The function `Event2to3(event2, event3)`: the contents of `*event3` on return (the
function returns `event3` itself).  `event3` on entry is whatever the output
buffer held.
```
event3->common.type = event2->type;
event3->common.timestamp = (Uint64) SDL_MS_TO_NS(event2->common.timestamp);
SDL3_memcpy((&event3->common) + 1, (&event2->common) + 1,
            sizeof (SDL_Event) - sizeof (SDL_CommonEvent));
``` -/
def Event2to3 (T : Target) (event2 : SDL2_Event) (event3 : SDL_Event) : SDL_Event :=
  { common :=
      { type := event2.type
        timestamp := SDL_MS_TO_NS event2.common.timestamp % 2 ^ 64 }
    payload := SDL3_memcpy event3.payload event2.payload (Event2to3_count T) }

/-- Two legacy events hold the same bytes in the `sizeof (SDL2_Event)` bytes
of the union: the same header and the same payload bytes after it. -/
def SDL2_Event.SameObject (T : Target) (a b : SDL2_Event) : Prop :=
  a.common = b.common ∧ ∀ i, i < Event3to2_count T → a.payload i = b.payload i

/-! ## The filter and watcher registry -/

/-- A node of the watcher list, `struct EventFilterWrapperData`; the `next`
link is the tail of the list the node is in. -/
structure EventFilterWrapperData where
  filter2 : Nat
  userdata : Nat
deriving DecidableEq, Repr

/-- The SDL2 state the file keeps: `EventFilter2`, `EventFilterUserData2` and
the list headed by `EventWatchers2`.  All start out `NULL`. -/
structure Registry where
  EventFilter2 : Nat
  EventFilterUserData2 : Nat
  EventWatchers2 : List EventFilterWrapperData
deriving DecidableEq, Repr

/-- The state at load time. -/
def Registry.initial : Registry := ⟨0, 0, []⟩

/-- What the application's callbacks do: `code f userdata event` is the call
`f(userdata, &event)` of the `SDL2_EventFilter` at address `f`, giving what
the callback leaves in the event it was handed and the `int` it returns.
Callbacks are taken not to change the registry while a dispatch runs, and the
mutex held around the watcher loop is not modelled. -/
abbrev Callbacks := Nat → Nat → SDL2_Event → SDL2_Event × Int

/-- One call of an application callback made during a dispatch. -/
structure Call where
  filter2 : Nat
  userdata : Nat
  event : SDL2_Event

/-- The function pointer and user data a call was made with, as a list entry. -/
def Call.entry (c : Call) : EventFilterWrapperData := ⟨c.filter2, c.userdata⟩

/-- The loop `for (i = EventWatchers2; i != NULL; i = i->next)
i->filter2(i->userdata, Event3to2(event3, &event2));` of `EventFilter3to2`:
the calls it makes, in order.  `event2` is the local buffer, which every
watcher may overwrite. -/
def EventFilter3to2_loop (T : Target) (code : Callbacks) (event3 : SDL_Event) :
    List EventFilterWrapperData → SDL2_Event → List Call
  | [], _ => []
  | i :: next, event2 =>
    let arg := Event3to2 T event3 event2
    ⟨i.filter2, i.userdata, arg⟩ ::
      EventFilter3to2_loop T code event3 next (code i.filter2 i.userdata arg).1

/-- The function `EventFilter3to2(userdata, event3)`, the hook installed into the
underlying library: its return value and the callback calls it makes, in
order.  `event2` is the uninitialised local `SDL2_Event event2`.
```
if (EventFilter2) {
    return EventFilter2(EventFilterUserData2, Event3to2(event3, &event2));
}
if (EventWatchers2 != NULL) {
    for (i = EventWatchers2; i != NULL; i = i->next) {
        i->filter2(i->userdata, Event3to2(event3, &event2));
    }
}
return 1;
``` -/
def EventFilter3to2 (T : Target) (code : Callbacks) (st : Registry) (event3 : SDL_Event)
    (event2 : SDL2_Event) : Int × List Call :=
  if st.EventFilter2 ≠ 0 then
    let arg := Event3to2 T event3 event2
    ((code st.EventFilter2 st.EventFilterUserData2 arg).2,
      [⟨st.EventFilter2, st.EventFilterUserData2, arg⟩])
  else if st.EventWatchers2 ≠ [] then
    (1, EventFilter3to2_loop T code event3 st.EventWatchers2 event2)
  else
    (1, [])

/-- The function `SDL_SetEventFilter(filter2, userdata)`:
`EventFilter2 = filter2; EventFilterUserData2 = userdata;`. -/
def SDL_SetEventFilter (filter2 userdata : Nat) (st : Registry) : Registry :=
  { st with EventFilter2 := filter2, EventFilterUserData2 := userdata }

/-- The function `SDL_AddEventWatch(filter2, userdata)`; `malloc_ok` tells whether
`SDL_malloc` returned a node.
```
wrapperdata = SDL_malloc(sizeof (EventFilterWrapperData));
if (!wrapperdata) { return; }
wrapperdata->filter2 = filter2;
wrapperdata->userdata = userdata;
wrapperdata->next = EventWatchers2;
EventWatchers2 = wrapperdata;
``` -/
def SDL_AddEventWatch (malloc_ok : Bool) (filter2 userdata : Nat) (st : Registry) :
    Registry :=
  if malloc_ok then
    { st with EventWatchers2 := ⟨filter2, userdata⟩ :: st.EventWatchers2 }
  else
    st

/-- The function `SDL_GetEventFilter(filter2, userdata)`: its return value and
the two output locations afterwards.  An output argument is `none` for a
`NULL` pointer and `some v` for a pointer to a location holding `v`.
```
if (!EventFilter2) { return SDL_FALSE; }
if (filter2) { *filter2 = EventFilter2; }
if (userdata) { *userdata = EventFilterUserData2; }
return SDL_TRUE;
``` -/
def SDL_GetEventFilter (st : Registry) (filter2 userdata : Option Nat) :
    Bool × Option Nat × Option Nat :=
  if st.EventFilter2 = 0 then
    (false, filter2, userdata)
  else
    (true, filter2.map (fun _ => st.EventFilter2),
      userdata.map (fun _ => st.EventFilterUserData2))

/-- The loop of `SDL_DelEventWatch` standing at the node `i` that heads the
second list; `before` holds the nodes from `EventWatchers2` up to `i`, and
`prev` is the loop variable of that name, as the position in `before` of the
node it points to (`none` for `NULL`).  The result is the list headed by
`EventWatchers2` when the loop is left, and whether the `SDL_assert` the call
evaluated held (`true` when it evaluated none).  The loop header is
`i = i->next` only, and the body does not assign `prev`.
```
for (i = EventWatchers2; i != NULL; i = i->next) {
    if ((i->filter2 == filter2) && (i->userdata == userdata)) {
        if (prev) {
            SDL_assert(i != EventWatchers2);
            prev->next = i->next;
        } else {
            SDL_assert(i == EventWatchers2);
            EventWatchers2 = i->next;
        }
        SDL3_free(i);
        break;
    }
}
``` -/
def SDL_DelEventWatch_loop (filter2 userdata : Nat) (prev : Option Nat) :
    List EventFilterWrapperData → List EventFilterWrapperData →
      List EventFilterWrapperData × Bool
  | before, [] => (before, true)
  | before, i :: next =>
    if i.filter2 = filter2 ∧ i.userdata = userdata then
      match prev with
      | some p => (before.take (p + 1) ++ next, decide (before ≠ []))
      | none => (next, decide (before = []))
    else
      SDL_DelEventWatch_loop filter2 userdata prev (before ++ [i]) next

/-- The function `SDL_DelEventWatch(filter2, userdata)`:
`EventFilterWrapperData *prev = NULL;` and then the loop from the head of
the list.  Assertions are taken as compiled out, as in a release build. -/
def SDL_DelEventWatch (filter2 userdata : Nat) (st : Registry) : Registry :=
  { st with
    EventWatchers2 :=
      (SDL_DelEventWatch_loop filter2 userdata none [] st.EventWatchers2).1 }

/-- Whether the `SDL_assert` evaluated by `SDL_DelEventWatch(filter2, userdata)`
holds (`true` when the call evaluates none). -/
def SDL_DelEventWatch_assert (filter2 userdata : Nat) (st : Registry) : Bool :=
  (SDL_DelEventWatch_loop filter2 userdata none [] st.EventWatchers2).2

/-- Modelled from the spec: the error codes `SDL3_Error` takes come from the
SDL headers, which are not part of this source; `SDL_ENOMEM` is the one the
macro `SDL3_OutOfMemory()` of this file passes. -/
inductive SDL_errorcode
  | SDL_ENOMEM
  | SDL_EFREAD
  | SDL_EFWRITE
  | SDL_EFSEEK
  | SDL_UNSUPPORTED
deriving DecidableEq, Repr

/-- What the caller of `SDL_AddEventWatch` can observe of one call.  The
function returns `void`, so that is the registry afterwards and the error
the call recorded with `SDL3_Error` or `SDL3_SetError`, `none` when it
recorded none. -/
structure AddEventWatchOutcome where
  registry : Registry
  reported : Option SDL_errorcode
deriving DecidableEq, Repr

/-- One call of `SDL_AddEventWatch(filter2, userdata)` with everything the
caller can observe.  Neither path of the function calls `SDL3_Error`,
`SDL3_OutOfMemory` or `SDL3_SetError`; the failed allocation ends in
`return;  /* oh well. */`. -/
def SDL_AddEventWatch_outcome (malloc_ok : Bool) (filter2 userdata : Nat) (st : Registry) :
    AddEventWatchOutcome :=
  ⟨SDL_AddEventWatch malloc_ok filter2 userdata st, none⟩

/-- A call of one of the registration functions of the legacy API. -/
inductive RegistryCall
  | setEventFilter (filter2 userdata : Nat)
  | addEventWatch (malloc_ok : Bool) (filter2 userdata : Nat)
  | delEventWatch (filter2 userdata : Nat)
deriving DecidableEq, Repr

/-- The registry after one registration call. -/
def RegistryCall.apply : RegistryCall → Registry → Registry
  | .setEventFilter f u, st => SDL_SetEventFilter f u st
  | .addEventWatch ok f u, st => SDL_AddEventWatch ok f u st
  | .delEventWatch f u, st => SDL_DelEventWatch f u st

/-- The registry after a sequence of registration calls, first call first. -/
def runCalls (calls : List RegistryCall) (st : Registry) : Registry :=
  calls.foldl (fun s c => c.apply s) st

/-! ## Quirks -/

/-- The struct `QuirkEntryType`. -/
structure QuirkEntryType where
  exe_name : String
  hint_name : String
  hint_value : String
deriving DecidableEq, Repr

/-- The table `quirks[]`: only the dummy entry `{"", "", "0"}`. -/
def quirks : List QuirkEntryType := [⟨"", "", "0"⟩]

/-- The process environment: the value of each variable, `none` when unset. -/
abbrev Env := String → Option String

/-- Modelled from the spec: `SDL3_getenv` is a symbol of the underlying
library, not part of this source; it gives the value of the variable, `NULL`
(`none`) when the variable is not set. -/
def SDL3_getenv (env : Env) (name : String) : Option String := env name

/-- Modelled from the spec: `SDL3_setenv` is a symbol of the underlying
library, not part of this source; `SDL3_setenv(name, value, overwrite)` sets
the variable to the value, unless it is already set and `overwrite` is 0. -/
def SDL3_setenv (env : Env) (name value : String) (overwrite : Int) : Env :=
  if overwrite ≠ 0 ∨ (env name).isNone then
    fun n => if n = name then some value else env n
  else
    env

/-- The loop of `SDL2Compat_ApplyQuirks` over the table (logging left out).
```
for (i = 0; i < (int) SDL_arraysize(quirks); i++) {
    if (!SDL3_strcmp(exe_name, quirks[i].exe_name)) {
        if (!SDL3_getenv(quirks[i].hint_name)) {
            SDL3_setenv(quirks[i].hint_name, quirks[i].hint_value, 1);
        }
    }
}
``` -/
def SDL2Compat_ApplyQuirks_loop (exe_name : String) : List QuirkEntryType → Env → Env
  | [], env => env
  | q :: rest, env =>
    if exe_name = q.exe_name then
      if (SDL3_getenv env q.hint_name).isNone then
        SDL2Compat_ApplyQuirks_loop exe_name rest (SDL3_setenv env q.hint_name q.hint_value 1)
      else
        SDL2Compat_ApplyQuirks_loop exe_name rest env
    else
      SDL2Compat_ApplyQuirks_loop exe_name rest env

/-- The `#ifdef __linux__` block of `SDL2Compat_ApplyQuirks` (logging left
out); `linux` tells whether the build has `__linux__`.
```
if (force_x11) {
    const char *videodriver_env = SDL3_getenv("SDL_VIDEODRIVER");
    if (videodriver_env && (SDL3_strcmp(videodriver_env, "x11") != 0)) {
    } else {
        SDL3_setenv("SDL_VIDEODRIVER", "x11", 1);
    }
}
``` -/
def SDL2Compat_ApplyQuirks_x11 (linux force_x11 : Bool) (env : Env) : Env :=
  if linux && force_x11 then
    match SDL3_getenv env "SDL_VIDEODRIVER" with
    | some videodriver_env =>
      if videodriver_env ≠ "x11" then env else SDL3_setenv env "SDL_VIDEODRIVER" "x11" 1
    | none => SDL3_setenv env "SDL_VIDEODRIVER" "x11" 1
  else
    env

/-- The function `SDL2Compat_ApplyQuirks(force_x11)`: the environment
afterwards.  `table` is the quirk table, `exe_name` what
`SDL2Compat_GetExeName()` returns.  After the X11 block,
`if (*exe_name == '\0') { return; }` and then the loop over the table. -/
def SDL2Compat_ApplyQuirks (linux : Bool) (table : List QuirkEntryType) (force_x11 : Bool)
    (exe_name : String) (env : Env) : Env :=
  let env := SDL2Compat_ApplyQuirks_x11 linux force_x11 env
  if exe_name = "" then env else SDL2Compat_ApplyQuirks_loop exe_name table env

/-- The function `SDL2Compat_GetHint(name)`. -/
def SDL2Compat_GetHint (env : Env) (name : String) : Option String := SDL3_getenv env name

/-- The function `SDL2Compat_GetHintBoolean(name, default_value)`; `atoi` is
the library's `SDL3_atoi`. -/
def SDL2Compat_GetHintBoolean (atoi : String → Int) (env : Env) (name : String)
    (default_value : Bool) : Bool :=
  match SDL2Compat_GetHint env name with
  | none => default_value
  | some val => decide (atoi val ≠ 0)

/-! ## Loading and unloading the underlying library -/

/-- Modelled from the spec: the struct `SDL_version` comes from the SDL
headers, which are not part of this source; it holds the three components
major, minor and patch, one byte each. -/
structure SDL_version where
  major : Nat
  minor : Nat
  patch : Nat
deriving DecidableEq, Repr

/-- Modelled from the spec: the macro `SDL_VERSIONNUM` comes from the SDL
headers, which are not part of this source.  The spec fixes that comparing
two version numbers is the numeric major.minor.patch comparison; the number
is taken here with the one-byte components at bits 24, 8 and 0, major above
minor above patch. -/
def SDL_VERSIONNUM (X Y Z : Nat) : Nat := X * 2 ^ 24 + Y * 2 ^ 8 + Z

/-- The macro `SDL3_REQUIRED_VER`, `SDL_VERSIONNUM(3,0,0)`. -/
def SDL3_REQUIRED_VER : Nat := SDL_VERSIONNUM 3 0 0

/-- The comparison in the words of the spec: `a` is below `b` when its major
is smaller, or the majors are equal and its minor is smaller, or majors and
minors are equal and its patch is smaller, all compared as numbers. -/
def SDL_version.Below (a b : SDL_version) : Prop :=
  a.major < b.major ∨
    (a.major = b.major ∧ (a.minor < b.minor ∨ (a.minor = b.minor ∧ a.patch < b.patch)))

/-- The contents of the buffer `loaderror`, by the statement that wrote it. -/
inductive LoadErrorText
  | empty
  | failedLoading
  | missing (fn : String)
  | tooOld (major minor patch : Nat)
  | failedInit
deriving DecidableEq, Repr

/-- The characters in the buffer `loaderror`. -/
def LoadErrorText.text : LoadErrorText → String
  | .empty => ""
  | .failedLoading => "Failed loading SDL3 library."
  | .missing fn => fn ++ " missing in SDL3 library."
  | .tooOld major minor patch =>
    "SDL3 " ++ toString major ++ "." ++ toString minor ++ "." ++ toString patch ++
      " library is too old."
  | .failedInit => "Failed to initialize sdl2-compat library."

/-- What the platform and the underlying library answer during a load. -/
structure Host where
  /-- Whether the build has `__linux__`. -/
  linux : Bool
  /-- The handle `dlopen(NULL, ...)` gives for the global symbols; `0` is `NULL`. -/
  global_symbols : Nat
  /-- The answer of `dlsym(global_symbols, name)`; `0` is `NULL`. -/
  global_dlsym : String → Nat
  /-- The handle `LoadSDL3Library()` stores in `Loaded_SDL3`; `0` when the
  library cannot be opened. -/
  dlopen_SDL3 : Nat
  /-- The answer of `LookupSDL3Sym(sym)`; `0` when the symbol is missing. -/
  dlsym : String → Nat
  /-- What `SDL3_GetVersion` writes. -/
  version : SDL_version
  /-- What `SDL3_CreateMutex()` returns; `0` is `NULL`. -/
  createMutex : Nat
  /-- What `SDL2Compat_GetExeName()` returns. -/
  exe_name : String
  /-- The library's `SDL3_atoi`. -/
  atoi : String → Int

/-- The static state of the loader.  `SDL3` holds the function pointer
variables `SDL3_fn`, one per `SDL3_SYM` line of `sdl3_syms.h` and in that
order, as the pair of `fn` and the pointer (`0` is `NULL`).  `closed` lists
the handles `CloseSDL3Library()` has closed and `lookups` the names
`LookupSDL3Sym` was asked for, both oldest first. -/
structure Shim where
  Loaded_SDL3 : Nat
  SDL3 : List (String × Nat)
  loaderror : LoadErrorText
  LinkedSDL3VersionInt : Nat
  WantDebugLogging : Bool
  EventWatchListMutex : Nat
  hookInstalled : Bool
  env : Env
  closed : List Nat
  lookups : List String

/-- The function `LoadSDL3Symbol(fn, okay)`: the pointer it returns, `*okay`
afterwards and the state afterwards.
```
void *retval = NULL;
if (*okay) {
    retval = LookupSDL3Sym(fn);
    if (retval == NULL) {
        sprintf_fn(loaderror, "%s missing in SDL3 library.", fn);
        *okay = 0;
    }
}
return retval;
``` -/
def LoadSDL3Symbol (h : Host) (fn : String) (okay : Int) (s : Shim) : Nat × Int × Shim :=
  if okay ≠ 0 then
    let retval := h.dlsym fn
    let s := { s with lookups := s.lookups ++ [fn] }
    if retval = 0 then
      (retval, 0, { s with loaderror := .missing fn })
    else
      (retval, okay, s)
  else
    (0, okay, s)

/-- The lines `SDL3_fn = LoadSDL3Symbol("SDL_" #fn, &okay);` of `LoadSDL3`,
one per function pointer variable and in their order: the new value of each
variable, `okay` afterwards and the state afterwards. -/
def LoadSDL3_symbols (h : Host) : List (String × Nat) → Int → Shim →
    List (String × Nat) × Int × Shim
  | [], okay, s => ([], okay, s)
  | (fn, _) :: rest, okay, s =>
    let r := LoadSDL3Symbol h ("SDL_" ++ fn) okay s
    let r' := LoadSDL3_symbols h rest r.2.1 r.2.2
    ((fn, r.1) :: r'.1, r'.2.1, r'.2.2)

/-- The macro `CloseSDL3Library()`:
`if (Loaded_SDL3) { dlclose(Loaded_SDL3); Loaded_SDL3 = NULL; }`. -/
def CloseSDL3Library (s : Shim) : Shim :=
  if s.Loaded_SDL3 ≠ 0 then
    { s with closed := s.closed ++ [s.Loaded_SDL3], Loaded_SDL3 := 0 }
  else
    s

/-- The function `UnloadSDL3()`: `SDL3_fn = NULL;` for every function
pointer variable, then `CloseSDL3Library();`. -/
def UnloadSDL3 (s : Shim) : Shim :=
  CloseSDL3Library { s with SDL3 := s.SDL3.map (fun v => (v.1, 0)) }

/-- The function `SDL2Compat_InitOnStartup()`: its return value and the state
afterwards.
```
EventWatchListMutex = SDL3_CreateMutex();
if (!EventWatchListMutex) { okay = 0; }
else { SDL3_SetEventFilter(EventFilter3to2, NULL); }
if (!okay) { strcpy_fn(loaderror, "Failed to initialize sdl2-compat library."); }
return okay;
``` -/
def SDL2Compat_InitOnStartup (h : Host) (s : Shim) : Int × Shim :=
  let s := { s with EventWatchListMutex := h.createMutex }
  if s.EventWatchListMutex = 0 then
    (0, { s with loaderror := .failedInit })
  else
    (1, { s with hookInstalled := true })

/-- The `#ifdef __linux__` block at the start of `LoadSDL3` that sets
`force_x11` from the symbols already linked into the process. -/
def LoadSDL3_force_x11 (h : Host) : Bool :=
  if h.linux then
    if h.global_symbols ≠ 0 then
      if h.global_dlsym "glxewInit" ≠ 0 then true
      else if h.global_dlsym "cgGLEnableProgramProfiles" ≠ 0 then true
      else if h.global_dlsym "_Z7ssgInitv" ≠ 0 then true
      else false
    else false
  else false

/-- The block of `LoadSDL3` under `if (okay)` after the symbol lines: the
version check, then the debug-logging hint and the quirks.
```
SDL3_GetVersion(&v);
LinkedSDL3VersionInt = SDL_VERSIONNUM(v.major, v.minor, v.patch);
okay = (LinkedSDL3VersionInt >= SDL3_REQUIRED_VER);
if (!okay) {
    sprintf_fn(loaderror, "SDL3 %d.%d.%d library is too old.", v.major, v.minor, v.patch);
} else {
    WantDebugLogging = SDL2Compat_GetHintBoolean("SDL2COMPAT_DEBUG_LOGGING", SDL_FALSE);
    SDL2Compat_ApplyQuirks(force_x11);
}
``` -/
def LoadSDL3_version (h : Host) (force_x11 : Bool) (s : Shim) : Int × Shim :=
  let v := h.version
  let s := { s with LinkedSDL3VersionInt := SDL_VERSIONNUM v.major v.minor v.patch % 2 ^ 32 }
  if s.LinkedSDL3VersionInt ≥ SDL3_REQUIRED_VER then
    let s :=
      { s with
        WantDebugLogging :=
          SDL2Compat_GetHintBoolean h.atoi s.env "SDL2COMPAT_DEBUG_LOGGING" false }
    (1, { s with env := SDL2Compat_ApplyQuirks h.linux quirks force_x11 h.exe_name s.env })
  else
    (0, { s with loaderror := .tooOld v.major v.minor v.patch })

/-- The symbol lines of `LoadSDL3`, starting with `okay = 1` as
`LoadSDL3Library()` left it: `okay` afterwards and the state afterwards, the
function pointer variables assigned. -/
def LoadSDL3_bind (h : Host) (s : Shim) : Int × Shim :=
  let r := LoadSDL3_symbols h s.SDL3 1 s
  (r.2.1, { r.2.2 with SDL3 := r.1 })

/-- The end of `LoadSDL3`, from `okay` and the state reached so far:
`if (okay) { okay = SDL2Compat_InitOnStartup(); }` and then
`if (!okay) { UnloadSDL3(); }`. -/
def LoadSDL3_finish (h : Host) (r : Int × Shim) : Int × Shim :=
  let r2 := if r.1 ≠ 0 then SDL2Compat_InitOnStartup h r.2 else r
  if r2.1 = 0 then (r2.1, UnloadSDL3 r2.2) else r2

/-- The function `LoadSDL3()`: its return value and the state afterwards.
```
int okay = 1;
if (!Loaded_SDL3) {
    force_x11 = ...;
    okay = LoadSDL3Library();
    if (!okay) {
        strcpy_fn(loaderror, "Failed loading SDL3 library.");
    } else {
        SDL3_fn = LoadSDL3Symbol("SDL_" #fn, &okay);   (for every fn)
        if (okay) { ... version check, hint, quirks ... }
        if (okay) { okay = SDL2Compat_InitOnStartup(); }
        if (!okay) { UnloadSDL3(); }
    }
}
return okay;
``` -/
def LoadSDL3 (h : Host) (s : Shim) : Int × Shim :=
  if s.Loaded_SDL3 ≠ 0 then
    (1, s)
  else
    let force_x11 := LoadSDL3_force_x11 h
    let s := { s with Loaded_SDL3 := h.dlopen_SDL3 }
    if s.Loaded_SDL3 = 0 then
      (0, { s with loaderror := .failedLoading })
    else
      let r := LoadSDL3_bind h s
      LoadSDL3_finish h (if r.1 ≠ 0 then LoadSDL3_version h force_x11 r.2 else r)

/-! ## Version, gamma and surfaces -/

/-- The macro `SDL2_COMPAT_VERSION_MINOR`. -/
def SDL2_COMPAT_VERSION_MINOR : Nat := 90

/-- The macro `SDL2_COMPAT_VERSION_PATCH`. -/
def SDL2_COMPAT_VERSION_PATCH : Nat := 0

/-- The function `SDL_GetVersion(ver)`: the contents of `*ver` afterwards,
`none` standing for a `NULL` pointer.  `getHintBoolean` is the library's
`SDL_GetHintBoolean(name, default_value)`.
```
if (ver) {
    ver->major = 2;
    ver->minor = SDL2_COMPAT_VERSION_MINOR;
    ver->patch = SDL2_COMPAT_VERSION_PATCH;
    if (SDL_GetHintBoolean("SDL_LEGACY_VERSION", SDL_FALSE)) {
        ver->patch = ver->minor;
        ver->minor = 0;
    }
}
``` -/
def SDL_GetVersion (getHintBoolean : String → Bool → Bool) (ver : Option SDL_version) :
    Option SDL_version :=
  match ver with
  | none => none
  | some v =>
    let v := { v with major := 2 }
    let v := { v with minor := SDL2_COMPAT_VERSION_MINOR }
    let v := { v with patch := SDL2_COMPAT_VERSION_PATCH }
    if getHintBoolean "SDL_LEGACY_VERSION" false then
      let v := { v with patch := v.minor }
      some { v with minor := 0 }
    else
      some v

/-- Modelled from the spec: `SDL3_Error` is a symbol of the underlying
library, not part of this source; it records the error and returns the
sentinel failure, `-1`.  The result is the return value and the error
recorded. -/
def SDL3_Error (code : SDL_errorcode) : Int × Option SDL_errorcode := (-1, some code)

/-- The macro `SDL3_OutOfMemory()`, `SDL3_Error(SDL_ENOMEM)`. -/
def SDL3_OutOfMemory : Int × Option SDL_errorcode := SDL3_Error .SDL_ENOMEM

/-- A value of the C type `float`, as far as this file compares it: a finite
value (a rational number), an infinity, or a NaN. -/
inductive CFloat
  | finite (q : ℚ)
  | infinity (negative : Bool)
  | nan

/-- The C comparison `x < 0.0f`. -/
def CFloat.ltZero : CFloat → Bool
  | .finite q => decide (q < 0)
  | .infinity negative => negative
  | .nan => false

/-- The C comparison `x == c` for a finite constant `c`. -/
def CFloat.eqConst (c : ℚ) : CFloat → Bool
  | .finite q => decide (q = c)
  | .infinity _ => false
  | .nan => false

/-- An array of `Uint16` seen from its first element: the value at each index. -/
abbrev Ramp := Nat → Nat

/-- The loop `for (i = 0; i < n; ++i) { a[i] = f(i); }` on an array seen from
its first element; also what a block fill or block copy of `n` elements
does. -/
def assignEach (f : Nat → Nat) : Nat → (Nat → Nat) → (Nat → Nat)
  | 0, a => a
  | n + 1, a => fun i => if i = n then f n else assignEach f n a i

/-- The function `SDL_CalculateGammaRamp(gamma, ramp)`: the array at `ramp`
afterwards, `none` standing for a `NULL` pointer (error reporting left out).
`curve gamma i` is the value of the floating point expression
`(int) (SDL_pow((double) i / 256.0, 1.0f / gamma) * 65535.0 + 0.5)`.
```
if (gamma < 0.0f) { SDL_InvalidParamError("gamma"); return; }
if (ramp == NULL) { SDL_InvalidParamError("ramp"); return; }
if (gamma == 0.0f) {
    SDL_memset(ramp, 0, 256 * sizeof(Uint16));
    return;
} else if (gamma == 1.0f) {
    for (i = 0; i < 256; ++i) { ramp[i] = (i << 8) | i; }
    return;
} else {
    for (i = 0; i < 256; ++i) {
        value = (int) (SDL_pow((double) i / 256.0, gamma) * 65535.0 + 0.5);
        if (value > 65535) { value = 65535; }
        ramp[i] = (Uint16) value;
    }
}
``` -/
def SDL_CalculateGammaRamp (curve : CFloat → Nat → Int) (gamma : CFloat)
    (ramp : Option Ramp) : Option Ramp :=
  if gamma.ltZero then
    ramp
  else
    match ramp with
    | none => none
    | some ramp =>
      if gamma.eqConst 0 then
        some (assignEach (fun _ => 0) 256 ramp)
      else if gamma.eqConst 1 then
        some (assignEach (fun i => ((i <<< 8) ||| i) % 2 ^ 16) 256 ramp)
      else
        some (assignEach
          (fun i => ((if curve gamma i > 65535 then 65535 else curve gamma i) % 2 ^ 16).toNat)
          256 ramp)

/-- The two functions of the underlying library that `SDL_CreateRGBSurface`
calls, for a library whose surfaces are values of `Surface`. -/
structure SurfaceLibrary (Surface : Type) where
  SDL3_CreateSurface : Int → Int → Nat → Surface
  SDL3_MasksToPixelFormatEnum : Int → Nat → Nat → Nat → Nat → Nat

/-- The function `SDL_CreateRGBSurface(flags, width, height, depth, Rmask,
Gmask, Bmask, Amask)`:
`return SDL3_CreateSurface(width, height,
SDL3_MasksToPixelFormatEnum(depth, Rmask, Gmask, Bmask, Amask));`. -/
def SDL_CreateRGBSurface {Surface : Type} (lib : SurfaceLibrary Surface) (_flags : Nat)
    (width height depth : Int) (Rmask Gmask Bmask Amask : Nat) : Surface :=
  lib.SDL3_CreateSurface width height
    (lib.SDL3_MasksToPixelFormatEnum depth Rmask Gmask Bmask Amask)

/-! ## Peeping at the event queue -/

/-- An array of legacy events seen from its first element. -/
abbrev Events2 := Nat → SDL2_Event

/-- An array of current events seen from its first element. -/
abbrev Events3 := Nat → SDL_Event

/-- Modelled from the spec: the enum `SDL_eventaction` comes from the SDL
headers, which are not part of this source; `SDL_ADDEVENT` is its first
enumerator. -/
def SDL_ADDEVENT : Nat := 0

/-- The underlying `SDL3_PeepEvents(events, numevents, action, minType,
maxType)`: from the array handed in and the other arguments, its return
value and the array afterwards. -/
abbrev PeepEvents3 := Events3 → Int → Nat → Nat → Nat → Int × Events3

/-- What one call of `SDL_PeepEvents` does: its return value, the caller's
array afterwards, and the array handed to `SDL3_PeepEvents` (`none` when
that call is not made). -/
structure PeepResult where
  retval : Int
  events2 : Events2
  passed : Option Events3

/-- The loop `for (i = 0; i < n; i++) { Event2to3(&events2[i], &events3[i]); }`:
the array `events3` afterwards. -/
def SDL_PeepEvents_add (T : Target) (events2 : Events2) : Nat → Events3 → Events3
  | 0, events3 => events3
  | n + 1, events3 =>
    fun i =>
      if i = n then Event2to3 T (events2 n) (SDL_PeepEvents_add T events2 n events3 n)
      else SDL_PeepEvents_add T events2 n events3 i

/-- The loop `for (i = 0; i < n; i++) { Event3to2(&events3[i], &events2[i]); }`:
the array `events2` afterwards. -/
def SDL_PeepEvents_get (T : Target) (events3 : Events3) : Nat → Events2 → Events2
  | 0, events2 => events2
  | n + 1, events2 =>
    fun i =>
      if i = n then Event3to2 T (events3 n) (SDL_PeepEvents_get T events3 n events2 n)
      else SDL_PeepEvents_get T events3 n events2 i

/-- The function `SDL_PeepEvents(events2, numevents, action, minType,
maxType)`.  `lib` is the underlying `SDL3_PeepEvents` and `malloc` what
`SDL3_malloc(numevents * sizeof (SDL_Event))` returns: the uninitialised
array, or `none` for `NULL`.  The header macro `SDL_OutOfMemory()` is
`SDL_Error(SDL_ENOMEM)`, which this file passes through to `SDL3_Error`.
```
if (!events3) {
    return SDL_OutOfMemory();
} else if (action == SDL_ADDEVENT) {
    for (i = 0; i < numevents; i++) { Event2to3(&events2[i], &events3[i]); }
    retval = SDL3_PeepEvents(events3, numevents, action, minType, maxType);
} else {
    retval = SDL3_PeepEvents(events3, numevents, action, minType, maxType);
    for (i = 0; i < retval; i++) { Event3to2(&events3[i], &events2[i]); }
}
SDL_free(events3);
return retval;
``` -/
def SDL_PeepEvents (T : Target) (lib : PeepEvents3) (malloc : Option Events3)
    (events2 : Events2) (numevents : Int) (action minType maxType : Nat) : PeepResult :=
  match malloc with
  | none => ⟨SDL3_OutOfMemory.1, events2, none⟩
  | some events3 =>
    if action = SDL_ADDEVENT then
      let events3 := SDL_PeepEvents_add T events2 numevents.toNat events3
      ⟨(lib events3 numevents action minType maxType).1, events2, some events3⟩
    else
      let r := lib events3 numevents action minType maxType
      ⟨r.1, SDL_PeepEvents_get T r.2 r.1.toNat events2, some events3⟩

/-! ## Sample inputs -/

/-- A legacy key-down event (`type = 0x300`) stamped `ts` milliseconds, with
payload byte `i` holding `i % 256`. -/
def sampleEvent2 (ts : Nat) : SDL2_Event := ⟨⟨0x300, ts⟩, fun i => i % 256⟩

/-- A current key-down event stamped `ns` nanoseconds, with payload byte `i`
holding `(i + 1) % 256`. -/
def sampleEvent3 (ns : Nat) : SDL_Event := ⟨⟨0x300, ns⟩, fun i => (i + 1) % 256⟩

/-- An output buffer for a legacy event filled with `0xAA` bytes. -/
def scratch2 : SDL2_Event := ⟨⟨0xAAAAAAAA, 0xAAAAAAAA⟩, fun _ => 0xAA⟩

/-- An output buffer for a legacy event filled with `0x55` bytes. -/
def scratch2' : SDL2_Event := ⟨⟨0x55555555, 0x55555555⟩, fun _ => 0x55⟩

/-- An output buffer for a current event filled with `0xAA` bytes. -/
def scratch3 : SDL_Event := ⟨⟨0xAAAAAAAA, 0xAAAAAAAAAAAAAAAA⟩, fun _ => 0xAA⟩

/-- Application callbacks for the examples: every callback overwrites the
whole event it is handed with `0xFF` bytes; the one at address `1` returns
`0`, every other one returns `1`. -/
def scribble : Callbacks :=
  fun f _ _ => (⟨⟨0xFFFFFFFF, 0xFFFFFFFF⟩, fun _ => 0xFF⟩, if f = 1 then 0 else 1)

/-- A registry with the filter at address `2` (user data `0`) set and one
watcher, the callback at address `3` (user data `0`). -/
def filterAndWatcher : Registry := ⟨2, 0, [⟨3, 0⟩]⟩

/-- A registry with the filter at address `1` (user data `0`) set and one
watcher, the callback at address `3` (user data `0`). -/
def vetoAndWatcher : Registry := ⟨1, 0, [⟨3, 0⟩]⟩

/-- A registry with no filter and two watchers. -/
def twoWatchers : Registry := ⟨0, 0, [⟨3, 9⟩, ⟨2, 7⟩]⟩

/-- The second call of a dispatch of `sampleEvent3 5000000000` with the
registry `twoWatchers` and the callbacks `scribble`: the watcher `(2, 7)`,
handed the conversion made into the buffer the first watcher left behind. -/
def secondCall : Call :=
  ⟨2, 7, Event3to2 target64 (sampleEvent3 5000000000)
    (scribble 3 9 (Event3to2 target64 (sampleEvent3 5000000000) scratch2)).1⟩

/-- A registry with no filter and three watchers. -/
def threeWatchers : Registry := ⟨0, 0, [⟨4, 1⟩, ⟨3, 9⟩, ⟨2, 7⟩]⟩

/-- Registration calls that set a filter, add a watcher and unset the filter. -/
def sampleCalls : List RegistryCall :=
  [.setEventFilter 5 6, .addEventWatch true 3 9, .setEventFilter 0 1]

/-- An environment in which no variable is set. -/
def emptyEnv : Env := fun _ => none

/-- A loader state before any load, with three function pointer variables. -/
def sampleShim : Shim :=
  { Loaded_SDL3 := 0
    SDL3 := [("Init", 0), ("PushEvent", 0), ("Quit", 0)]
    loaderror := .empty
    LinkedSDL3VersionInt := 0
    WantDebugLogging := false
    EventWatchListMutex := 0
    hookInstalled := false
    env := emptyEnv
    closed := []
    lookups := [] }

/-- A host whose library opens with handle `77` and has every symbol but
`SDL_PushEvent`. -/
def hostMissingSymbol : Host :=
  { linux := true
    global_symbols := 0
    global_dlsym := fun _ => 0
    dlopen_SDL3 := 77
    dlsym := fun sym => if sym = "SDL_PushEvent" then 0 else 4096
    version := ⟨3, 0, 0⟩
    createMutex := 5
    exe_name := "braid"
    atoi := fun _ => 0 }

/-- A host whose library opens with handle `77`, has every symbol and
reports the version `v`. -/
def hostWithVersion (v : SDL_version) : Host :=
  { linux := true
    global_symbols := 0
    global_dlsym := fun _ => 0
    dlopen_SDL3 := 77
    dlsym := fun _ => 4096
    version := v
    createMutex := 5
    exe_name := "braid"
    atoi := fun _ => 0 }

/-- A legacy event stamped 5000 ms whose 48 payload bytes hold `i % 256`,
followed in memory by bytes that all hold `after`. -/
def eventThen (after : Nat) : SDL2_Event :=
  ⟨⟨0x300, 5000⟩, fun i => if i < 48 then i % 256 else after⟩

/-- An array of legacy events, element `i` stamped `i` milliseconds. -/
def sampleEvents2 : Events2 := fun i => sampleEvent2 i

/-- An uninitialised array of current events. -/
def garbage3 : Events3 := fun _ => scratch3

/-- An underlying `SDL3_PeepEvents` that reports one event, stamped
7,000,000 ns, whatever it is asked. -/
def samplePeep : PeepEvents3 := fun _ _ _ _ _ => (1, fun _ => sampleEvent3 7000000)

/-! ## Layout facts -/

theorem le_alignUp (off a : Nat) (ha : 0 < a) : off ≤ alignUp off a := by
  unfold alignUp
  have h := Nat.div_add_mod (off + a - 1) a
  have hm := Nat.mod_lt (off + a - 1) ha
  have hc : a * ((off + a - 1) / a) = (off + a - 1) / a * a := Nat.mul_comm _ _
  omega

theorem sizeof_SDL2_CommonEvent_eq : sizeof_SDL2_CommonEvent = 8 := by decide

theorem sizeof_SDL2_CommonEvent_le (ptr : Nat) :
    sizeof_SDL2_CommonEvent ≤ sizeof_SDL2_Event ptr := by
  have h8 : sizeof_SDL2_CommonEvent = Layout.SDL2_CommonEvent.size := rfl
  unfold sizeof_SDL2_Event Layout.SDL2_Event CType.union Layout.SDL2_Event_variants
  simp only [List.cons_append, maxSize, maxAlign]
  refine le_trans ?_ (le_alignUp _ _ ?_)
  · rw [h8]
    exact le_trans (le_max_left _ _) (le_max_right _ _)
  · exact lt_of_lt_of_le (by decide : 0 < Layout.Uint32.align) (le_max_left _ _)

theorem sizeof_SDL2_Event_64 : sizeof_SDL2_Event 8 = 56 := by
  set_option maxRecDepth 4096 in decide

theorem Event3to2_count_target64 : Event3to2_count target64 = 48 := by
  unfold Event3to2_count
  rw [show target64.ptrSize = 8 from rfl, sizeof_SDL2_Event_64, sizeof_SDL2_CommonEvent_eq]

/-! ## Event translation -/

theorem SDL3_memcpy_lt (dst src : Bytes) (n i : Nat) (h : i < n) :
    SDL3_memcpy dst src n i = src i := by
  simp [SDL3_memcpy, h]

theorem SDL3_memcpy_ge (dst src : Bytes) (n i : Nat) (h : n ≤ i) :
    SDL3_memcpy dst src n i = dst i := by
  simp [SDL3_memcpy, Nat.not_lt.mpr h]

theorem SDL_MS_TO_NS_exact (ms : Nat) (h : ms < 2 ^ 32) :
    SDL_MS_TO_NS ms = ms * 1000000 := by
  unfold SDL_MS_TO_NS
  norm_num at h ⊢
  omega

/-- C1: for every legacy event `E` whose millisecond timestamp `T` is a 32-bit
value, converting up with `Event2to3` and back down with `Event3to2` gives a
legacy event whose header timestamp is exactly `T`, whatever the two output
buffers held before. -/
theorem C1_timestamp_up_then_down (T : Target) (E : SDL2_Event) (event3 : SDL_Event)
    (event2 : SDL2_Event) (hT : E.common.timestamp < 2 ^ 32) :
    (Event3to2 T (Event2to3 T E event3) event2).common.timestamp = E.common.timestamp := by
  have hlt : E.common.timestamp * 1000000 < 2 ^ 64 := by
    norm_num at hT ⊢
    omega
  simp only [Event3to2, Event2to3, SDL_NS_TO_MS, SDL_MS_TO_NS_exact _ hT]
  rw [Nat.mod_eq_of_lt hlt, Nat.mul_div_cancel _ (by norm_num), Nat.mod_eq_of_lt hT]

/-- The scenario of C1: 5000 ms goes up to 5,000,000,000 ns and comes back
as 5000 ms. -/
theorem C1_timestamp_up_then_down_witness :
    (sampleEvent2 5000).common.timestamp < 2 ^ 32 ∧
    (Event2to3 target64 (sampleEvent2 5000) scratch3).common.timestamp = 5000000000 ∧
    (Event3to2 target64 (Event2to3 target64 (sampleEvent2 5000) scratch3)
      scratch2).common.timestamp = (sampleEvent2 5000).common.timestamp :=
  ⟨by decide, by decide,
    C1_timestamp_up_then_down target64 (sampleEvent2 5000) scratch3 scratch2 (by decide)⟩

/-- C2: for every current event with nanosecond timestamp `N`, the legacy
timestamp `Event3to2` writes is `(N / 1000000) % 2 ^ 32`: integer division,
then truncation to 32 bits; in particular it is a 32-bit value. -/
theorem C2_timestamp_down (T : Target) (event3 : SDL_Event) (event2 : SDL2_Event) :
    (Event3to2 T event3 event2).common.timestamp
        = event3.common.timestamp / 1000000 % 2 ^ 32 ∧
    (Event3to2 T event3 event2).common.timestamp < 2 ^ 32 := by
  refine ⟨rfl, ?_⟩
  simp only [Event3to2]
  exact Nat.mod_lt _ (by norm_num)

/-- C3: for every legacy event whose millisecond timestamp `T` is a 32-bit
value, the current timestamp `Event2to3` writes is `T * 1000000` exactly: the
64-bit product does not wrap, and the result is a 64-bit value. -/
theorem C3_timestamp_up (T : Target) (event2 : SDL2_Event) (event3 : SDL_Event)
    (hT : event2.common.timestamp < 2 ^ 32) :
    (Event2to3 T event2 event3).common.timestamp = event2.common.timestamp * 1000000 ∧
    (Event2to3 T event2 event3).common.timestamp < 2 ^ 64 := by
  simp only [Event2to3, SDL_MS_TO_NS_exact _ hT]
  norm_num at hT ⊢
  omega

/-- The largest 32-bit timestamp, 4294967295 ms, becomes 4294967295000000 ns. -/
theorem C3_timestamp_up_witness :
    (sampleEvent2 4294967295).common.timestamp < 2 ^ 32 ∧
    (Event2to3 target64 (sampleEvent2 4294967295) scratch3).common.timestamp
      = 4294967295000000 :=
  ⟨by decide, (C3_timestamp_up target64 (sampleEvent2 4294967295) scratch3 (by decide)).1⟩

/-- C4: both converters copy the type tag unchanged, for every input event
and every tag value, recognised or not. -/
theorem C4_type_copied (T : Target) (event3 out3 : SDL_Event) (event2 out2 : SDL2_Event) :
    (Event3to2 T event3 out2).type = event3.type ∧
    (Event2to3 T event2 out3).type = event2.type :=
  ⟨rfl, rfl⟩

/-- C5: `Event3to2` writes the whole legacy event.  The header is the two
32-bit fields it assigns (8 bytes), the bytes it copies are all the bytes of
the union after the header, each copied payload byte `i` is the current
event's payload byte `i`, and two runs on the same current event agree on
every byte of the union whatever the output buffers held before. -/
theorem C5_every_byte_written (T : Target) (event3 : SDL_Event) (event2 event2' : SDL2_Event) :
    sizeof_SDL2_CommonEvent = 8 ∧
    sizeof_SDL2_CommonEvent + (sizeof_SDL2_Event T.ptrSize - sizeof_SDL2_CommonEvent)
      = sizeof_SDL2_Event T.ptrSize ∧
    (∀ i, i < sizeof_SDL2_Event T.ptrSize - sizeof_SDL2_CommonEvent →
      (Event3to2 T event3 event2).payload i = event3.payload i) ∧
    (Event3to2 T event3 event2).common = (Event3to2 T event3 event2').common ∧
    (∀ i, i < sizeof_SDL2_Event T.ptrSize - sizeof_SDL2_CommonEvent →
      (Event3to2 T event3 event2).payload i = (Event3to2 T event3 event2').payload i) := by
  have hle := sizeof_SDL2_CommonEvent_le T.ptrSize
  refine ⟨sizeof_SDL2_CommonEvent_eq, by omega, ?_, ?_, ?_⟩
  · intro i hi
    simp only [Event3to2, Event3to2_count, SDL3_memcpy, hi, if_true]
  · simp only [Event3to2]
  · intro i hi
    simp only [Event3to2, Event3to2_count, SDL3_memcpy, hi, if_true]

/-- C6: the legacy event union is as large as its padding array.  With 4-byte
and with 8-byte pointers every event struct in the union fits in 56 bytes and
the union is exactly 56 bytes; with 16-byte pointers the union is exactly 64
bytes. -/
theorem C6_union_size_is_padding_size :
    ((Layout.SDL2_Event 4).size = (Layout.SDL2_Event_padding 4).size ∧
      (Layout.SDL2_Event 4).size = 56 ∧
      ∀ v ∈ Layout.SDL2_Event_variants 4, v.size ≤ 56) ∧
    ((Layout.SDL2_Event 8).size = (Layout.SDL2_Event_padding 8).size ∧
      (Layout.SDL2_Event 8).size = 56 ∧
      ∀ v ∈ Layout.SDL2_Event_variants 8, v.size ≤ 56) ∧
    ((Layout.SDL2_Event 16).size = (Layout.SDL2_Event_padding 16).size ∧
      (Layout.SDL2_Event 16).size = 64 ∧
      ∀ v ∈ Layout.SDL2_Event_variants 16, v.size ≤ 64) := by
  set_option maxRecDepth 8192 in decide

/-! ## Dispatch -/

theorem Event3to2_sameObject (T : Target) (event3 : SDL_Event) (buf buf' : SDL2_Event) :
    SDL2_Event.SameObject T (Event3to2 T event3 buf) (Event3to2 T event3 buf') := by
  refine ⟨by simp only [Event3to2], ?_⟩
  intro i hi
  simp only [Event3to2, SDL3_memcpy, hi, if_true]

theorem EventFilter3to2_loop_entries (T : Target) (code : Callbacks) (event3 : SDL_Event)
    (ws : List EventFilterWrapperData) (buf : SDL2_Event) :
    (EventFilter3to2_loop T code event3 ws buf).map Call.entry = ws := by
  induction ws generalizing buf with
  | nil => rfl
  | cons w ws ih =>
    simp only [EventFilter3to2_loop, List.map_cons, ih]
    rfl

theorem EventFilter3to2_loop_event (T : Target) (code : Callbacks) (event3 : SDL_Event)
    (ws : List EventFilterWrapperData) (buf : SDL2_Event) :
    ∀ c ∈ EventFilter3to2_loop T code event3 ws buf,
      ∃ b, c.event = Event3to2 T event3 b := by
  induction ws generalizing buf with
  | nil => intro c hc; simp [EventFilter3to2_loop] at hc
  | cons w ws ih =>
    intro c hc
    simp only [EventFilter3to2_loop, List.mem_cons] at hc
    rcases hc with rfl | hc
    · exact ⟨buf, rfl⟩
    · exact ih _ c hc

theorem EventFilter3to2_calls_no_filter (T : Target) (code : Callbacks) (st : Registry)
    (event3 : SDL_Event) (event2 : SDL2_Event) (h : st.EventFilter2 = 0) :
    (EventFilter3to2 T code st event3 event2).2
      = EventFilter3to2_loop T code event3 st.EventWatchers2 event2 := by
  unfold EventFilter3to2
  by_cases hw : st.EventWatchers2 = []
  · simp [h, hw, EventFilter3to2_loop]
  · simp [h, hw]

/-- C7: the dispatch hook returns 0 (drop the event) exactly when a legacy
filter is set and that filter returns 0 on the converted event; so a filter
returning nonzero keeps the event, and with no filter set the hook returns 1
whatever the watchers do. -/
theorem C7_veto_only_by_filter (T : Target) (code : Callbacks) (st : Registry)
    (event3 : SDL_Event) (event2 : SDL2_Event) :
    ((EventFilter3to2 T code st event3 event2).1 = 0 ↔
      st.EventFilter2 ≠ 0 ∧
        (code st.EventFilter2 st.EventFilterUserData2 (Event3to2 T event3 event2)).2 = 0) ∧
    (st.EventFilter2 = 0 → (EventFilter3to2 T code st event3 event2).1 = 1) := by
  unfold EventFilter3to2
  by_cases hf : st.EventFilter2 = 0
  · by_cases hw : st.EventWatchers2 = [] <;> simp [hf, hw]
  · simp [hf]

/-- The code at the failing input of C8: with a filter set and one watcher
registered, a dispatch calls only the filter, whether the filter returns
nonzero (`filterAndWatcher`) or zero (`vetoAndWatcher`); the watcher at
address `3` is not called. -/
theorem C8_filter_set_skips_watchers :
    (EventFilter3to2 target64 scribble filterAndWatcher (sampleEvent3 0) scratch2).1 = 1 ∧
    (EventFilter3to2 target64 scribble filterAndWatcher (sampleEvent3 0) scratch2).2.map
      Call.entry = [⟨2, 0⟩] ∧
    (EventFilter3to2 target64 scribble vetoAndWatcher (sampleEvent3 0) scratch2).1 = 0 ∧
    (EventFilter3to2 target64 scribble vetoAndWatcher (sampleEvent3 0) scratch2).2.map
      Call.entry = [⟨1, 0⟩] := by
  refine ⟨by decide, by decide, by decide, by decide⟩

/-- C9: with no legacy filter set, one dispatch calls the watchers of the
list, each list entry once, in list order; and since `SDL_AddEventWatch`
puts the new entry at the head, after adding `a` and then `b` the dispatch
calls `b`, then `a`, then the watchers that were there before. -/
theorem C9_watchers_once_in_list_order (T : Target) (code : Callbacks) (st : Registry)
    (event3 : SDL_Event) (event2 : SDL2_Event) (h : st.EventFilter2 = 0) :
    (EventFilter3to2 T code st event3 event2).2.map Call.entry = st.EventWatchers2 ∧
    ∀ a b : EventFilterWrapperData,
      (EventFilter3to2 T code
        (SDL_AddEventWatch true b.filter2 b.userdata
          (SDL_AddEventWatch true a.filter2 a.userdata st)) event3 event2).2.map Call.entry
        = b :: a :: st.EventWatchers2 := by
  refine ⟨?_, ?_⟩
  · rw [EventFilter3to2_calls_no_filter T code st event3 event2 h,
      EventFilter3to2_loop_entries]
  · intro a b
    rw [EventFilter3to2_calls_no_filter T code _ event3 event2 (by simpa [SDL_AddEventWatch] using h),
      EventFilter3to2_loop_entries]
    simp [SDL_AddEventWatch]

/-- Starting from the empty registry, adding the watcher `(2, 7)` and then
the watcher `(3, 9)` makes one dispatch call `(3, 9)` and then `(2, 7)`. -/
theorem C9_watchers_once_in_list_order_witness :
    Registry.initial.EventFilter2 = 0 ∧
    (EventFilter3to2 target64 scribble
      (SDL_AddEventWatch true 3 9 (SDL_AddEventWatch true 2 7 Registry.initial))
      (sampleEvent3 0) scratch2).2.map Call.entry = [⟨3, 9⟩, ⟨2, 7⟩] :=
  ⟨rfl, (C9_watchers_once_in_list_order target64 scribble Registry.initial (sampleEvent3 0)
    scratch2 rfl).2 ⟨2, 7⟩ ⟨3, 9⟩⟩

/-- C10: every callback called during one dispatch is handed a fresh
conversion of the source event: whatever the callbacks called before it
wrote into the event they were handed, and whatever the local buffer held,
the event it receives has the bytes `Event3to2` gives for the source event. -/
theorem C10_fresh_conversion_per_watcher (T : Target) (code : Callbacks) (st : Registry)
    (event3 : SDL_Event) (event2 buf : SDL2_Event) (c : Call)
    (hc : c ∈ (EventFilter3to2 T code st event3 event2).2) :
    SDL2_Event.SameObject T c.event (Event3to2 T event3 buf) := by
  have key : ∃ b, c.event = Event3to2 T event3 b := by
    by_cases hf : st.EventFilter2 = 0
    · rw [EventFilter3to2_calls_no_filter T code st event3 event2 hf] at hc
      exact EventFilter3to2_loop_event T code event3 _ _ c hc
    · simp only [EventFilter3to2, hf, ne_eq, not_false_eq_true, if_true,
        List.mem_singleton] at hc
      exact ⟨event2, by rw [hc]⟩
  obtain ⟨b, hb⟩ := key
  rw [hb]
  exact Event3to2_sameObject T event3 b buf

/-- With two watchers that both overwrite the event they are handed, the
second one is still handed the conversion of the source event: tag `0x300`,
5000 ms, payload byte `0` equal to the source's, as in a conversion into any
other buffer. -/
theorem C10_fresh_conversion_per_watcher_witness :
    secondCall ∈ (EventFilter3to2 target64 scribble twoWatchers (sampleEvent3 5000000000)
      scratch2).2 ∧
    secondCall.event.common = ⟨0x300, 5000⟩ ∧
    secondCall.event.payload 0 = 1 ∧
    SDL2_Event.SameObject target64 secondCall.event
      (Event3to2 target64 (sampleEvent3 5000000000) scratch2') :=
  have hmem : secondCall ∈ (EventFilter3to2 target64 scribble twoWatchers
      (sampleEvent3 5000000000) scratch2).2 :=
    List.mem_cons_of_mem _ (List.mem_cons_self _ _)
  ⟨hmem, by decide, by simp [secondCall, Event3to2, SDL3_memcpy, Event3to2_count_target64,
      sampleEvent3],
    C10_fresh_conversion_per_watcher target64 scribble twoWatchers (sampleEvent3 5000000000)
      scratch2 scratch2' secondCall hmem⟩

/-! ## Registration -/

theorem runCalls_append (calls calls' : List RegistryCall) (st : Registry) :
    runCalls (calls ++ calls') st = runCalls calls' (runCalls calls st) := by
  simp [runCalls, List.foldl_append]

/-- C11: `SDL_SetEventFilter` is last-write-wins.  After any sequence of
registration calls that ends in `SDL_SetEventFilter(f, u)` with `f` not
`NULL`, from any registry, `SDL_GetEventFilter` returns true and writes
exactly `f` and `u` to its two output locations. -/
theorem C11_set_filter_last_write_wins (calls : List RegistryCall) (st : Registry)
    (f u a b : Nat) (hf : f ≠ 0) :
    SDL_GetEventFilter (runCalls (calls ++ [.setEventFilter f u]) st) (some a) (some b)
      = (true, some f, some u) := by
  rw [runCalls_append]
  simp [runCalls, RegistryCall.apply, SDL_SetEventFilter, SDL_GetEventFilter, hf]

/-- After setting a filter, adding a watcher, unsetting the filter and then
setting the filter `2` with user data `7`, the filter read back is `(2, 7)`. -/
theorem C11_set_filter_last_write_wins_witness :
    (2 : Nat) ≠ 0 ∧
    SDL_GetEventFilter (runCalls (sampleCalls ++ [.setEventFilter 2 7]) Registry.initial)
      (some 0) (some 0) = (true, some 2, some 7) :=
  ⟨by decide, C11_set_filter_last_write_wins sampleCalls Registry.initial 2 7 0 0 (by decide)⟩

/-- C12: `SDL_GetEventFilter` returns false exactly when `EventFilter2` is
`NULL`, which is the case at load time and after `SDL_SetEventFilter(NULL, u)`
for any `u`; when it returns false both output locations are as they were. -/
theorem C12_get_filter_unset (st : Registry) (filter2 userdata : Option Nat) (u : Nat) :
    ((SDL_GetEventFilter st filter2 userdata).1 = false ↔ st.EventFilter2 = 0) ∧
    ((SDL_GetEventFilter st filter2 userdata).1 = false →
      (SDL_GetEventFilter st filter2 userdata).2 = (filter2, userdata)) ∧
    SDL_GetEventFilter Registry.initial filter2 userdata = (false, filter2, userdata) ∧
    SDL_GetEventFilter (SDL_SetEventFilter 0 u st) filter2 userdata
      = (false, filter2, userdata) := by
  refine ⟨?_, ?_, rfl, rfl⟩
  · unfold SDL_GetEventFilter
    by_cases h : st.EventFilter2 = 0 <;> simp [h]
  · unfold SDL_GetEventFilter
    by_cases h : st.EventFilter2 = 0 <;> simp [h]

/-- C13: when the allocation succeeds, `SDL_AddEventWatch(f, u)` turns the
watcher list `L` into `(f, u) :: L` and leaves the filter alone: the length
grows by one and so does the number of entries equal to `(f, u)`, also when
`L` already holds such entries; with no filter set the next dispatch calls
`(f, u)` and then every entry of `L`, duplicates included. -/
theorem C13_add_watch_prepends (T : Target) (code : Callbacks) (f u : Nat) (st : Registry)
    (event3 : SDL_Event) (event2 : SDL2_Event) :
    (SDL_AddEventWatch true f u st).EventWatchers2 = ⟨f, u⟩ :: st.EventWatchers2 ∧
    (SDL_AddEventWatch true f u st).EventWatchers2.length = st.EventWatchers2.length + 1 ∧
    (SDL_AddEventWatch true f u st).EventWatchers2.count ⟨f, u⟩
      = st.EventWatchers2.count ⟨f, u⟩ + 1 ∧
    (SDL_AddEventWatch true f u st).EventFilter2 = st.EventFilter2 ∧
    (SDL_AddEventWatch true f u st).EventFilterUserData2 = st.EventFilterUserData2 ∧
    (st.EventFilter2 = 0 →
      (EventFilter3to2 T code (SDL_AddEventWatch true f u st) event3 event2).2.map Call.entry
        = ⟨f, u⟩ :: st.EventWatchers2) := by
  refine ⟨rfl, by simp [SDL_AddEventWatch], by simp [SDL_AddEventWatch], rfl, rfl, ?_⟩
  intro h
  rw [EventFilter3to2_calls_no_filter T code _ event3 event2 (by simpa [SDL_AddEventWatch] using h),
    EventFilter3to2_loop_entries]
  rfl

/-- The claim C14 fails on the code: when the allocation fails while adding
the watcher `(2, 7)`, the call records no error, so no out-of-memory failure
reaches the caller. -/
theorem C14_no_out_of_memory_report :
    (SDL_AddEventWatch_outcome false 2 7 twoWatchers).reported = none ∧
    (SDL_AddEventWatch_outcome false 2 7 twoWatchers).reported
      ≠ some SDL_errorcode.SDL_ENOMEM := by
  decide

/-- C14, amended: when the allocation in `SDL_AddEventWatch` fails, the call
returns without reporting anything to the caller, and the registry, the
watcher list with it, is left unchanged. -/
theorem C14_failed_allocation_is_silent (f u : Nat) (st : Registry) :
    SDL_AddEventWatch_outcome false f u st = ⟨st, none⟩ ∧
    (SDL_AddEventWatch_outcome false f u st).registry.EventWatchers2 = st.EventWatchers2 :=
  ⟨rfl, rfl⟩

/-- The code at the failing input of C15: with the watchers
`[(4, 1), (3, 9), (2, 7)]`, `SDL_DelEventWatch(3, 9)` leaves `[(2, 7)]`, not
`[(4, 1), (2, 7)]`: the entry before the match is dropped with it, and the
assertion `SDL_assert(i == EventWatchers2)` of the branch taken is false.
Removing the head entry `(4, 1)` works, and removing an absent entry changes
nothing. -/
theorem C15_del_drops_entries_before_match :
    (SDL_DelEventWatch 3 9 threeWatchers).EventWatchers2 = [⟨2, 7⟩] ∧
    threeWatchers.EventWatchers2.eraseP (fun i => i.filter2 = 3 ∧ i.userdata = 9)
      = [⟨4, 1⟩, ⟨2, 7⟩] ∧
    SDL_DelEventWatch_assert 3 9 threeWatchers = false ∧
    (SDL_DelEventWatch 4 1 threeWatchers).EventWatchers2 = [⟨3, 9⟩, ⟨2, 7⟩] ∧
    (SDL_DelEventWatch 3 1 threeWatchers).EventWatchers2 = threeWatchers.EventWatchers2 := by
  decide

/-! ## Quirks -/

theorem SDL3_setenv_same (env : Env) (name value : String) :
    SDL3_setenv env name value 1 name = some value := by
  simp [SDL3_setenv]

theorem SDL3_setenv_other (env : Env) (name value n : String) (h : n ≠ name) :
    SDL3_setenv env name value 1 n = env n := by
  simp [SDL3_setenv, h]

theorem ApplyQuirks_loop_keeps_set (exe_name : String) (table : List QuirkEntryType)
    (env : Env) (n v : String) (h : env n = some v) :
    SDL2Compat_ApplyQuirks_loop exe_name table env n = some v := by
  induction table generalizing env with
  | nil => exact h
  | cons q rest ih =>
    unfold SDL2Compat_ApplyQuirks_loop
    by_cases hm : exe_name = q.exe_name
    · by_cases hs : (SDL3_getenv env q.hint_name).isNone = true
      · rw [if_pos hm, if_pos hs]
        apply ih
        have hne : n ≠ q.hint_name := by
          intro hn
          rw [hn] at h
          simp [SDL3_getenv, h] at hs
        rw [SDL3_setenv_other _ _ _ _ hne]
        exact h
      · rw [if_pos hm, if_neg hs]
        exact ih env h
    · rw [if_neg hm]
      exact ih env h

theorem ApplyQuirks_loop_sets_unset (exe_name : String) (table : List QuirkEntryType)
    (env : Env) (q : QuirkEntryType) (hq : q ∈ table) (hmatch : q.exe_name = exe_name)
    (hvalue : ∀ q' ∈ table, q'.exe_name = exe_name → q'.hint_name = q.hint_name →
      q'.hint_value = q.hint_value)
    (h : env q.hint_name = none) :
    SDL2Compat_ApplyQuirks_loop exe_name table env q.hint_name = some q.hint_value := by
  induction table generalizing env with
  | nil => simp at hq
  | cons q' rest ih =>
    have hvalue' : ∀ p ∈ rest, p.exe_name = exe_name → p.hint_name = q.hint_name →
        p.hint_value = q.hint_value :=
      fun p hp => hvalue p (List.mem_cons_of_mem _ hp)
    unfold SDL2Compat_ApplyQuirks_loop
    by_cases hm : exe_name = q'.exe_name
    · by_cases hn : q'.hint_name = q.hint_name
      · have hs : (SDL3_getenv env q'.hint_name).isNone = true := by
          simp [SDL3_getenv, hn, h]
        rw [if_pos hm, if_pos hs]
        apply ApplyQuirks_loop_keeps_set
        rw [← hn, SDL3_setenv_same, hvalue q' (List.mem_cons_self _ _) hm.symm hn]
      · have hq' : q ∈ rest := by
          rcases List.mem_cons.mp hq with heq | hr
          · exact absurd (by rw [heq]) hn
          · exact hr
        by_cases hs : (SDL3_getenv env q'.hint_name).isNone = true
        · rw [if_pos hm, if_pos hs]
          apply ih _ hq' hvalue'
          rw [SDL3_setenv_other _ _ _ _ (Ne.symm hn)]
          exact h
        · rw [if_pos hm, if_neg hs]
          exact ih env hq' hvalue' h
    · have hq' : q ∈ rest := by
        rcases List.mem_cons.mp hq with heq | hr
        · exact absurd (by rw [← heq, hmatch]) hm
        · exact hr
      rw [if_neg hm]
      exact ih env hq' hvalue' h

theorem ApplyQuirks_x11_keeps_set (linux force_x11 : Bool) (env : Env) (n v : String)
    (h : env n = some v) : SDL2Compat_ApplyQuirks_x11 linux force_x11 env n = some v := by
  unfold SDL2Compat_ApplyQuirks_x11
  by_cases hx : (linux && force_x11) = true
  · rw [if_pos hx]
    by_cases hn : n = "SDL_VIDEODRIVER"
    · subst hn
      simp only [SDL3_getenv, h]
      by_cases hv : v = "x11"
      · simp [hv, SDL3_setenv]
      · simp [hv, h]
    · cases hg : SDL3_getenv env "SDL_VIDEODRIVER" with
      | none => simp only [SDL3_setenv_other _ _ _ _ hn, h]
      | some w =>
        by_cases hw : w = "x11"
        · simp only [hw, ne_eq, not_true_eq_false, if_false, SDL3_setenv_other _ _ _ _ hn, h]
        · simp only [hw, ne_eq, not_false_eq_true, if_true, h]
  · rw [if_neg hx]
    exact h

/-- C17: on Linux with `force_x11` true, after `SDL2Compat_ApplyQuirks` the
variable `SDL_VIDEODRIVER` is `x11` if it was not set before, and keeps its
value if it was set, for every quirk table and executable name. -/
theorem C17_force_x11_unless_set (table : List QuirkEntryType) (exe_name : String)
    (env : Env) :
    (env "SDL_VIDEODRIVER" = none →
      SDL2Compat_ApplyQuirks true table true exe_name env "SDL_VIDEODRIVER" = some "x11") ∧
    (∀ v, env "SDL_VIDEODRIVER" = some v →
      SDL2Compat_ApplyQuirks true table true exe_name env "SDL_VIDEODRIVER" = some v) := by
  have keep : ∀ (e : Env) (v : String), e "SDL_VIDEODRIVER" = some v →
      (if exe_name = "" then e else SDL2Compat_ApplyQuirks_loop exe_name table e)
        "SDL_VIDEODRIVER" = some v := by
    intro e v he
    by_cases hexe : exe_name = ""
    · simp only [hexe, if_true, he]
    · simp only [hexe, if_false]
      exact ApplyQuirks_loop_keeps_set _ _ _ _ _ he
  refine ⟨?_, ?_⟩
  · intro hv
    simp only [SDL2Compat_ApplyQuirks]
    apply keep
    simp [SDL2Compat_ApplyQuirks_x11, SDL3_getenv, hv, SDL3_setenv]
  · intro v hv
    simp only [SDL2Compat_ApplyQuirks]
    apply keep
    exact ApplyQuirks_x11_keeps_set _ _ _ _ _ hv

theorem LoadSDL3Symbol_frame (h : Host) (fn : String) (okay : Int) (s : Shim) :
    (LoadSDL3Symbol h fn okay s).2.2.Loaded_SDL3 = s.Loaded_SDL3 ∧
    (LoadSDL3Symbol h fn okay s).2.2.closed = s.closed := by
  unfold LoadSDL3Symbol
  by_cases ho : okay = 0
  · simp [ho]
  · by_cases hl : h.dlsym fn = 0 <;> simp [ho, hl]

theorem LoadSDL3_symbols_frame (h : Host) (l : List (String × Nat)) (okay : Int) (s : Shim) :
    (LoadSDL3_symbols h l okay s).2.2.Loaded_SDL3 = s.Loaded_SDL3 ∧
    (LoadSDL3_symbols h l okay s).2.2.closed = s.closed := by
  induction l generalizing okay s with
  | nil => exact ⟨rfl, rfl⟩
  | cons v rest ih =>
    obtain ⟨fn, p⟩ := v
    simp only [LoadSDL3_symbols]
    have h1 := LoadSDL3Symbol_frame h ("SDL_" ++ fn) okay s
    have h2 := ih (LoadSDL3Symbol h ("SDL_" ++ fn) okay s).2.1
      (LoadSDL3Symbol h ("SDL_" ++ fn) okay s).2.2
    exact ⟨h2.1.trans h1.1, h2.2.trans h1.2⟩

theorem LoadSDL3_symbols_names (h : Host) (l : List (String × Nat)) (okay : Int) (s : Shim) :
    (LoadSDL3_symbols h l okay s).1.map Prod.fst = l.map Prod.fst := by
  induction l generalizing okay s with
  | nil => rfl
  | cons v rest ih =>
    obtain ⟨fn, p⟩ := v
    simp only [LoadSDL3_symbols, List.map_cons, ih]

theorem LoadSDL3_symbols_failed (h : Host) (l : List (String × Nat)) (s : Shim) :
    (LoadSDL3_symbols h l 0 s).2.1 = 0 := by
  induction l generalizing s with
  | nil => rfl
  | cons v rest ih =>
    obtain ⟨fn, p⟩ := v
    simp only [LoadSDL3_symbols]
    have h0 : (LoadSDL3Symbol h ("SDL_" ++ fn) 0 s).2.1 = 0 := by simp [LoadSDL3Symbol]
    rw [h0]
    exact ih _

theorem LoadSDL3_symbols_missing (h : Host) (l : List (String × Nat)) (okay : Int) (s : Shim)
    (fn : String) (hfn : fn ∈ l.map Prod.fst) (hmiss : h.dlsym ("SDL_" ++ fn) = 0) :
    (LoadSDL3_symbols h l okay s).2.1 = 0 := by
  induction l generalizing okay s with
  | nil => simp at hfn
  | cons v rest ih =>
    obtain ⟨fn', p⟩ := v
    simp only [LoadSDL3_symbols]
    simp only [List.map_cons, List.mem_cons] at hfn
    rcases hfn with heq | hrest
    · subst heq
      have h0 : (LoadSDL3Symbol h ("SDL_" ++ fn) okay s).2.1 = 0 := by
        unfold LoadSDL3Symbol
        by_cases ho : okay = 0
        · simp [ho]
        · simp [ho, hmiss]
      rw [h0]
      exact LoadSDL3_symbols_failed h rest _
    · exact ih _ _ hrest

theorem LoadSDL3_symbols_resolved (h : Host) (l : List (String × Nat)) (s : Shim)
    (hall : ∀ v ∈ l, h.dlsym ("SDL_" ++ v.1) ≠ 0) :
    (LoadSDL3_symbols h l 1 s).2.1 = 1 ∧
    (LoadSDL3_symbols h l 1 s).2.2.loaderror = s.loaderror := by
  induction l generalizing s with
  | nil => exact ⟨rfl, rfl⟩
  | cons v rest ih =>
    obtain ⟨fn, p⟩ := v
    have hfn : h.dlsym ("SDL_" ++ fn) ≠ 0 := hall (fn, p) (List.mem_cons_self _ _)
    have hrest : ∀ v ∈ rest, h.dlsym ("SDL_" ++ v.1) ≠ 0 :=
      fun v hv => hall v (List.mem_cons_of_mem _ hv)
    have hs : LoadSDL3Symbol h ("SDL_" ++ fn) 1 s
        = (h.dlsym ("SDL_" ++ fn), 1, { s with lookups := s.lookups ++ ["SDL_" ++ fn] }) := by
      simp [LoadSDL3Symbol, hfn]
    simp only [LoadSDL3_symbols, hs]
    exact ih _ hrest

theorem UnloadSDL3_facts (s : Shim) :
    (∀ v ∈ (UnloadSDL3 s).SDL3, v.2 = 0) ∧
    (UnloadSDL3 s).SDL3.map Prod.fst = s.SDL3.map Prod.fst ∧
    (UnloadSDL3 s).Loaded_SDL3 = 0 ∧
    (UnloadSDL3 s).closed = (if s.Loaded_SDL3 ≠ 0 then s.closed ++ [s.Loaded_SDL3] else s.closed) ∧
    (UnloadSDL3 s).loaderror = s.loaderror := by
  unfold UnloadSDL3 CloseSDL3Library
  by_cases hl : s.Loaded_SDL3 = 0
  · simp [hl]
    intro a b x y _ _ hb
    exact hb.symm
  · simp [hl]
    intro a b x y _ _ hb
    exact hb.symm

theorem LoadSDL3_open (h : Host) (s : Shim)
    (hnot : s.Loaded_SDL3 = 0) (hopen : h.dlopen_SDL3 ≠ 0) :
    LoadSDL3 h s = LoadSDL3_finish h
      (if (LoadSDL3_bind h { s with Loaded_SDL3 := h.dlopen_SDL3 }).1 ≠ 0 then
        LoadSDL3_version h (LoadSDL3_force_x11 h)
          (LoadSDL3_bind h { s with Loaded_SDL3 := h.dlopen_SDL3 }).2
      else LoadSDL3_bind h { s with Loaded_SDL3 := h.dlopen_SDL3 }) := by
  unfold LoadSDL3
  rw [if_neg (by rw [hnot]; exact fun hc => hc rfl)]
  dsimp only
  rw [if_neg hopen]

theorem LoadSDL3_finish_failed (h : Host) (s : Shim) :
    LoadSDL3_finish h (0, s) = (0, UnloadSDL3 s) := by
  simp [LoadSDL3_finish]

/-- C18: if the library is not loaded yet and opens, but the lookup of one of
the required symbols fails, `LoadSDL3` returns 0 and on return every function
pointer variable is `NULL` (the variables being the same as before), the
handle `Loaded_SDL3` is `NULL`, and the handle that was opened has been
closed, once. -/
theorem C18_load_all_or_nothing (h : Host) (s : Shim) (fn : String)
    (hnot : s.Loaded_SDL3 = 0) (hopen : h.dlopen_SDL3 ≠ 0)
    (hfn : fn ∈ s.SDL3.map Prod.fst) (hmiss : h.dlsym ("SDL_" ++ fn) = 0) :
    (LoadSDL3 h s).1 = 0 ∧
    (∀ v ∈ (LoadSDL3 h s).2.SDL3, v.2 = 0) ∧
    (LoadSDL3 h s).2.SDL3.map Prod.fst = s.SDL3.map Prod.fst ∧
    (LoadSDL3 h s).2.Loaded_SDL3 = 0 ∧
    (LoadSDL3 h s).2.closed = s.closed ++ [h.dlopen_SDL3] := by
  have hok : (LoadSDL3_bind h { s with Loaded_SDL3 := h.dlopen_SDL3 }).1 = 0 :=
    LoadSDL3_symbols_missing h s.SDL3 1 { s with Loaded_SDL3 := h.dlopen_SDL3 } fn hfn hmiss
  have hfr := LoadSDL3_symbols_frame h s.SDL3 1 { s with Loaded_SDL3 := h.dlopen_SDL3 }
  have hnm := LoadSDL3_symbols_names h s.SDL3 1 { s with Loaded_SDL3 := h.dlopen_SDL3 }
  have hrun : LoadSDL3 h s
      = (0, UnloadSDL3 (LoadSDL3_bind h { s with Loaded_SDL3 := h.dlopen_SDL3 }).2) := by
    rw [LoadSDL3_open h s hnot hopen, if_neg (by rw [hok]; exact fun hc => hc rfl),
      ← LoadSDL3_finish_failed, ← hok]
  rw [hrun]
  obtain ⟨u1, u2, u3, u4, _⟩ :=
    UnloadSDL3_facts (LoadSDL3_bind h { s with Loaded_SDL3 := h.dlopen_SDL3 }).2
  refine ⟨rfl, u1, ?_, u3, ?_⟩
  · rw [u2]
    exact hnm
  · rw [u4]
    have hl : (LoadSDL3_bind h { s with Loaded_SDL3 := h.dlopen_SDL3 }).2.Loaded_SDL3
        = h.dlopen_SDL3 := hfr.1
    have hc : (LoadSDL3_bind h { s with Loaded_SDL3 := h.dlopen_SDL3 }).2.closed
        = s.closed := hfr.2
    rw [hl, hc, if_pos hopen]

/-- With three function pointer variables and a library that lacks
`SDL_PushEvent`, the load fails and leaves nothing bound. -/
theorem C18_load_all_or_nothing_witness :
    sampleShim.Loaded_SDL3 = 0 ∧ hostMissingSymbol.dlopen_SDL3 ≠ 0 ∧
    "PushEvent" ∈ sampleShim.SDL3.map Prod.fst ∧
    hostMissingSymbol.dlsym ("SDL_" ++ "PushEvent") = 0 ∧
    (LoadSDL3 hostMissingSymbol sampleShim).1 = 0 ∧
    (∀ v ∈ (LoadSDL3 hostMissingSymbol sampleShim).2.SDL3, v.2 = 0) ∧
    (LoadSDL3 hostMissingSymbol sampleShim).2.Loaded_SDL3 = 0 ∧
    (LoadSDL3 hostMissingSymbol sampleShim).2.closed = [77] :=
  have hw := C18_load_all_or_nothing hostMissingSymbol sampleShim "PushEvent" rfl
    (by decide) (by decide) (by decide)
  ⟨rfl, by decide, by decide, by decide, hw.1, hw.2.1, hw.2.2.2.1, hw.2.2.2.2⟩

theorem SDL_VERSIONNUM_lt_iff (a b : SDL_version)
    (ha : a.minor < 256 ∧ a.patch < 256) (hb : b.minor < 256 ∧ b.patch < 256) :
    SDL_VERSIONNUM a.major a.minor a.patch < SDL_VERSIONNUM b.major b.minor b.patch
      ↔ a.Below b := by
  unfold SDL_VERSIONNUM SDL_version.Below
  norm_num
  omega

theorem LoadSDL3_version_too_old (h : Host) (force_x11 : Bool) (s : Shim)
    (hbytes : h.version.major < 256 ∧ h.version.minor < 256 ∧ h.version.patch < 256)
    (hbelow : h.version.Below ⟨3, 0, 0⟩) :
    (LoadSDL3_version h force_x11 s).1 = 0 ∧
    (LoadSDL3_version h force_x11 s).2.loaderror
      = .tooOld h.version.major h.version.minor h.version.patch := by
  have hlt : ¬ (SDL_VERSIONNUM h.version.major h.version.minor h.version.patch % 2 ^ 32
      ≥ SDL3_REQUIRED_VER) := by
    unfold SDL_version.Below at hbelow
    unfold SDL3_REQUIRED_VER SDL_VERSIONNUM
    norm_num at hbelow ⊢
    omega
  unfold LoadSDL3_version
  dsimp only
  rw [if_neg hlt]
  exact ⟨rfl, rfl⟩

theorem LoadSDL3_version_ok (h : Host) (force_x11 : Bool) (s : Shim)
    (hbytes : h.version.major < 256 ∧ h.version.minor < 256 ∧ h.version.patch < 256)
    (hbelow : ¬ h.version.Below ⟨3, 0, 0⟩) :
    (LoadSDL3_version h force_x11 s).1 = 1 ∧
    (LoadSDL3_version h force_x11 s).2.loaderror = s.loaderror := by
  have hge : SDL_VERSIONNUM h.version.major h.version.minor h.version.patch % 2 ^ 32
      ≥ SDL3_REQUIRED_VER := by
    unfold SDL_version.Below at hbelow
    unfold SDL3_REQUIRED_VER SDL_VERSIONNUM
    norm_num at hbelow ⊢
    omega
  unfold LoadSDL3_version
  dsimp only
  rw [if_pos hge]
  exact ⟨rfl, rfl⟩

theorem SDL2Compat_InitOnStartup_loaderror (h : Host) (s : Shim) :
    (SDL2Compat_InitOnStartup h s).1 = 1 ∨
    ((SDL2Compat_InitOnStartup h s).1 = 0 ∧
      (SDL2Compat_InitOnStartup h s).2.loaderror = .failedInit) := by
  unfold SDL2Compat_InitOnStartup
  by_cases hm : h.createMutex = 0
  · right; simp [hm]
  · left; simp [hm]

theorem LoadSDL3_resolved (h : Host) (s : Shim)
    (hnot : s.Loaded_SDL3 = 0) (hopen : h.dlopen_SDL3 ≠ 0)
    (hall : ∀ v ∈ s.SDL3, h.dlsym ("SDL_" ++ v.1) ≠ 0) :
    LoadSDL3 h s = LoadSDL3_finish h (LoadSDL3_version h (LoadSDL3_force_x11 h)
      (LoadSDL3_bind h { s with Loaded_SDL3 := h.dlopen_SDL3 }).2) := by
  have hok : (LoadSDL3_bind h { s with Loaded_SDL3 := h.dlopen_SDL3 }).1 = 1 :=
    (LoadSDL3_symbols_resolved h s.SDL3 { s with Loaded_SDL3 := h.dlopen_SDL3 } hall).1
  rw [LoadSDL3_open h s hnot hopen, if_pos (by rw [hok]; decide)]

theorem LoadSDL3_finish_cases (h : Host) (r : Int × Shim) :
    (LoadSDL3_finish h r).1 ≠ 0 ∨
    (r.1 = 0 ∧ (LoadSDL3_finish h r).2.loaderror = r.2.loaderror) ∨
    (r.1 ≠ 0 ∧ (LoadSDL3_finish h r).2.loaderror = .failedInit) := by
  obtain ⟨okay, s⟩ := r
  unfold LoadSDL3_finish
  by_cases ho : okay = 0
  · right; left
    subst ho
    simp [(UnloadSDL3_facts s).2.2.2.2]
  · rcases SDL2Compat_InitOnStartup_loaderror h s with hi | ⟨hi, hie⟩
    · left
      simp [ho, hi]
    · right; right
      simp [ho, hi, (UnloadSDL3_facts _).2.2.2.2, hie]

/-- C19: when the library is not loaded yet, opens, and every symbol
resolves, `LoadSDL3` fails with the message `SDL3 major.minor.patch library
is too old.` exactly when the version the library reports is below 3.0.0 in
the numeric major, then minor, then patch comparison, for all one-byte
version components. -/
theorem C19_too_old_iff_below_minimum (h : Host) (s : Shim)
    (hnot : s.Loaded_SDL3 = 0) (hopen : h.dlopen_SDL3 ≠ 0)
    (hall : ∀ v ∈ s.SDL3, h.dlsym ("SDL_" ++ v.1) ≠ 0)
    (hbytes : h.version.major < 256 ∧ h.version.minor < 256 ∧ h.version.patch < 256) :
    ((LoadSDL3 h s).1 = 0 ∧
      (LoadSDL3 h s).2.loaderror = .tooOld h.version.major h.version.minor h.version.patch)
      ↔ h.version.Below ⟨3, 0, 0⟩ := by
  rw [LoadSDL3_resolved h s hnot hopen hall]
  by_cases hbelow : h.version.Below ⟨3, 0, 0⟩
  · obtain ⟨v1, v2⟩ := LoadSDL3_version_too_old h (LoadSDL3_force_x11 h)
      (LoadSDL3_bind h { s with Loaded_SDL3 := h.dlopen_SDL3 }).2 hbytes hbelow
    refine ⟨fun _ => hbelow, fun _ => ?_⟩
    have hfin : LoadSDL3_finish h (LoadSDL3_version h (LoadSDL3_force_x11 h)
        (LoadSDL3_bind h { s with Loaded_SDL3 := h.dlopen_SDL3 }).2)
        = (0, UnloadSDL3 (LoadSDL3_version h (LoadSDL3_force_x11 h)
            (LoadSDL3_bind h { s with Loaded_SDL3 := h.dlopen_SDL3 }).2).2) := by
      rw [← LoadSDL3_finish_failed, ← v1]
    rw [hfin]
    exact ⟨rfl, ((UnloadSDL3_facts _).2.2.2.2).trans v2⟩
  · obtain ⟨v1, _⟩ := LoadSDL3_version_ok h (LoadSDL3_force_x11 h)
      (LoadSDL3_bind h { s with Loaded_SDL3 := h.dlopen_SDL3 }).2 hbytes hbelow
    refine ⟨fun hfail => ?_, fun hb => absurd hb hbelow⟩
    exfalso
    rcases LoadSDL3_finish_cases h (LoadSDL3_version h (LoadSDL3_force_x11 h)
        (LoadSDL3_bind h { s with Loaded_SDL3 := h.dlopen_SDL3 }).2) with hc | hc | hc
    · exact hc hfail.1
    · rw [v1] at hc
      exact absurd hc.1 (by decide)
    · rw [hc.2] at hfail
      exact absurd hfail.2 (by simp)

/-- A library that reports 2.26.5 is too old; the message names that version. -/
theorem C19_too_old_iff_below_minimum_witness :
    sampleShim.Loaded_SDL3 = 0 ∧ (hostWithVersion ⟨2, 26, 5⟩).dlopen_SDL3 ≠ 0 ∧
    (⟨2, 26, 5⟩ : SDL_version).Below ⟨3, 0, 0⟩ ∧
    (LoadSDL3 (hostWithVersion ⟨2, 26, 5⟩) sampleShim).1 = 0 ∧
    (LoadSDL3 (hostWithVersion ⟨2, 26, 5⟩) sampleShim).2.loaderror = .tooOld 2 26 5 :=
  have hb : (⟨2, 26, 5⟩ : SDL_version).Below ⟨3, 0, 0⟩ := Or.inl (by decide)
  have hw := (C19_too_old_iff_below_minimum (hostWithVersion ⟨2, 26, 5⟩) sampleShim rfl
    (by decide) (fun _ _ => (by decide : (4096 : Nat) ≠ 0)) ⟨by decide, by decide, by decide⟩).mpr hb
  ⟨rfl, by decide, hb, hw.1, hw.2⟩

/-- C20: after `UnloadSDL3` every function pointer variable is `NULL` and
the handle `Loaded_SDL3` is `NULL`; a second call leaves the whole state as
the first call left it, the list of closed handles included; and a call in
the state where nothing is loaded changes nothing and closes nothing. -/
theorem C20_unload_idempotent (s : Shim) :
    (∀ v ∈ (UnloadSDL3 s).SDL3, v.2 = 0) ∧
    (UnloadSDL3 s).Loaded_SDL3 = 0 ∧
    UnloadSDL3 (UnloadSDL3 s) = UnloadSDL3 s ∧
    (UnloadSDL3 (UnloadSDL3 s)).closed = (UnloadSDL3 s).closed ∧
    (s.Loaded_SDL3 = 0 → (∀ v ∈ s.SDL3, v.2 = 0) →
      UnloadSDL3 s = s ∧ (UnloadSDL3 s).closed = s.closed) := by
  have hnone : ∀ t : Shim, t.Loaded_SDL3 = 0 → (∀ v ∈ t.SDL3, v.2 = 0) → UnloadSDL3 t = t := by
    intro t ht hv
    have hmap : t.SDL3.map (fun v => (v.1, 0)) = t.SDL3 := by
      conv_rhs => rw [← List.map_id t.SDL3]
      apply List.map_congr_left
      intro v hmem
      have := hv v hmem
      cases v
      simp_all
    unfold UnloadSDL3 CloseSDL3Library
    simp only [hmap, ht, ne_eq, not_true_eq_false, if_false]
    cases t
    simp_all
  obtain ⟨u1, _, u3, _, _⟩ := UnloadSDL3_facts s
  have hidem := hnone (UnloadSDL3 s) u3 u1
  refine ⟨u1, u3, hidem, by rw [hidem], ?_⟩
  intro ht hv
  have := hnone s ht hv
  exact ⟨this, by rw [this]⟩

/-! ## Version, gamma and surfaces -/

theorem assignEach_apply (f : Nat → Nat) (n : Nat) (a : Nat → Nat) (i : Nat) :
    assignEach f n a i = if i < n then f i else a i := by
  induction n with
  | zero => simp [assignEach]
  | succ n ih =>
    simp only [assignEach]
    by_cases h : i = n
    · subst h
      simp
    · rw [if_neg h, ih]
      by_cases hlt : i < n
      · rw [if_pos hlt, if_pos (by omega)]
      · rw [if_neg hlt, if_neg (by omega)]

theorem identity_ramp_entry : ∀ i < 256, ((i <<< 8) ||| i) % 2 ^ 16 = 257 * i := by
  set_option maxRecDepth 100000 in decide

/-- C21: `SDL_GetVersion` writes the version 2.90.0, that is
2.`SDL2_COMPAT_VERSION_MINOR`.`SDL2_COMPAT_VERSION_PATCH`, whatever the
location held and with no look at the underlying library's version; when
the hint `SDL_LEGACY_VERSION` is enabled it writes 2.0.90; with a `NULL`
argument it writes nothing. -/
theorem C21_reported_version (getHintBoolean : String → Bool → Bool) (ver : SDL_version) :
    (getHintBoolean "SDL_LEGACY_VERSION" false = false →
      SDL_GetVersion getHintBoolean (some ver)
        = some ⟨2, SDL2_COMPAT_VERSION_MINOR, SDL2_COMPAT_VERSION_PATCH⟩ ∧
      SDL_GetVersion getHintBoolean (some ver) = some ⟨2, 90, 0⟩) ∧
    (getHintBoolean "SDL_LEGACY_VERSION" false = true →
      SDL_GetVersion getHintBoolean (some ver) = some ⟨2, 0, 90⟩) ∧
    SDL_GetVersion getHintBoolean none = none := by
  refine ⟨?_, ?_, rfl⟩
  · intro h
    simp [SDL_GetVersion, h, SDL2_COMPAT_VERSION_MINOR, SDL2_COMPAT_VERSION_PATCH]
  · intro h
    simp [SDL_GetVersion, h, SDL2_COMPAT_VERSION_MINOR]

theorem LoadSDL3_symbols_after_failure (h : Host) (l : List (String × Nat)) (s : Shim) :
    LoadSDL3_symbols h l 0 s = (l.map (fun v => (v.1, 0)), 0, s) := by
  induction l with
  | nil => rfl
  | cons v rest ih =>
    obtain ⟨fn, p⟩ := v
    have h0 : LoadSDL3Symbol h ("SDL_" ++ fn) 0 s = (0, 0, s) := by simp [LoadSDL3Symbol]
    simp only [LoadSDL3_symbols, h0, ih, List.map_cons]

/-- C23: symbol resolution stops at the first failure.  When the symbols
before `fn` resolve and the lookup of `fn` fails, the symbol lines look up
the symbols up to `fn` and none after it, every variable from `fn` on is
`NULL`, `okay` is 0, and the message recorded names `fn`, also when later
symbols are missing too; a call of `LoadSDL3Symbol` with `okay` already 0
returns `NULL` and changes nothing, the list of lookups included. -/
theorem C23_resolution_stops_at_first_failure (h : Host) (s : Shim)
    (before after : List (String × Nat)) (fn : String) (p : Nat)
    (hbefore : ∀ v ∈ before, h.dlsym ("SDL_" ++ v.1) ≠ 0)
    (hmiss : h.dlsym ("SDL_" ++ fn) = 0) :
    (LoadSDL3_symbols h (before ++ (fn, p) :: after) 1 s).2.1 = 0 ∧
    (LoadSDL3_symbols h (before ++ (fn, p) :: after) 1 s).2.2.loaderror
      = .missing ("SDL_" ++ fn) ∧
    (LoadSDL3_symbols h (before ++ (fn, p) :: after) 1 s).2.2.lookups
      = s.lookups ++ before.map (fun v => "SDL_" ++ v.1) ++ ["SDL_" ++ fn] ∧
    (LoadSDL3_symbols h (before ++ (fn, p) :: after) 1 s).1
      = before.map (fun v => (v.1, h.dlsym ("SDL_" ++ v.1)))
          ++ (fn, 0) :: after.map (fun v => (v.1, 0)) ∧
    (∀ (name : String) (t : Shim), LoadSDL3Symbol h name 0 t = (0, 0, t)) := by
  have hlast : ∀ (name : String) (t : Shim), LoadSDL3Symbol h name 0 t = (0, 0, t) := by
    intro name t
    simp [LoadSDL3Symbol]
  have key : LoadSDL3_symbols h (before ++ (fn, p) :: after) 1 s
      = (before.map (fun v => (v.1, h.dlsym ("SDL_" ++ v.1)))
            ++ (fn, 0) :: after.map (fun v => (v.1, 0)),
          0,
          { s with
            lookups := s.lookups ++ before.map (fun v => "SDL_" ++ v.1) ++ ["SDL_" ++ fn]
            loaderror := .missing ("SDL_" ++ fn) }) := by
    induction before generalizing s with
    | nil =>
      have hs : LoadSDL3Symbol h ("SDL_" ++ fn) 1 s
          = (0, 0, { s with lookups := s.lookups ++ ["SDL_" ++ fn],
                            loaderror := .missing ("SDL_" ++ fn) }) := by
        simp [LoadSDL3Symbol, hmiss]
      simp only [List.nil_append, LoadSDL3_symbols, hs, LoadSDL3_symbols_after_failure,
        List.map_nil, List.append_nil]
    | cons v rest ih =>
      obtain ⟨fn', p'⟩ := v
      have hfn : h.dlsym ("SDL_" ++ fn') ≠ 0 := hbefore (fn', p') (List.mem_cons_self _ _)
      have hrest : ∀ v ∈ rest, h.dlsym ("SDL_" ++ v.1) ≠ 0 :=
        fun v hv => hbefore v (List.mem_cons_of_mem _ hv)
      have hs : LoadSDL3Symbol h ("SDL_" ++ fn') 1 s
          = (h.dlsym ("SDL_" ++ fn'), 1, { s with lookups := s.lookups ++ ["SDL_" ++ fn'] }) := by
        simp [LoadSDL3Symbol, hfn]
      rw [List.cons_append]
      simp only [LoadSDL3_symbols, hs]
      rw [ih _ hrest]
      simp only [List.map_cons, List.cons_append, List.append_assoc, List.singleton_append,
        List.nil_append]
  rw [key]
  exact ⟨rfl, rfl, rfl, rfl, hlast⟩

/-- With the variables `Init`, `PushEvent`, `Quit` and a library that lacks
`SDL_PushEvent`, the lookups made are `SDL_Init` and `SDL_PushEvent`;
`SDL_Quit` is never looked up, and the message names `SDL_PushEvent`. -/
theorem C23_resolution_stops_at_first_failure_witness :
    hostMissingSymbol.dlsym ("SDL_" ++ "PushEvent") = 0 ∧
    (LoadSDL3_symbols hostMissingSymbol sampleShim.SDL3 1 sampleShim).2.2.lookups
      = ["SDL_Init", "SDL_PushEvent"] ∧
    (LoadSDL3_symbols hostMissingSymbol sampleShim.SDL3 1 sampleShim).2.2.loaderror.text
      = "SDL_PushEvent missing in SDL3 library." ∧
    (LoadSDL3_symbols hostMissingSymbol sampleShim.SDL3 1 sampleShim).1
      = [("Init", 4096), ("PushEvent", 0), ("Quit", 0)] :=
  have hw := C23_resolution_stops_at_first_failure hostMissingSymbol sampleShim
    [("Init", 0)] [("Quit", 0)] "PushEvent" 0
    (fun v hv => by
      rw [List.mem_singleton.mp hv]
      decide) (by decide)
  ⟨by decide, hw.2.2.1, by rw [show sampleShim.SDL3 = [("Init", 0)] ++
      ("PushEvent", 0) :: [("Quit", 0)] from rfl, hw.2.1]; decide, hw.2.2.2.1⟩

/-- C24: `SDL_CalculateGammaRamp` with gamma exactly 1.0 writes the identity
ramp, entry `i` being `(i << 8) | i`, which is `257 * i`, for every `i`
below 256: entry 0 is 0, entry 255 is 65535 and the entries increase
strictly.  With gamma exactly 0.0 it writes 0 to all 256 entries.  With a
negative gamma or a `NULL` ramp it writes nothing. -/
theorem C24_gamma_ramp_special_cases (curve : CFloat → Nat → Int) (gamma : CFloat)
    (ramp : Ramp) :
    SDL_CalculateGammaRamp curve (.finite 1) (some ramp)
      = some (fun i => if i < 256 then 257 * i else ramp i) ∧
    (∀ i < 256, (i <<< 8) ||| i = 257 * i) ∧
    (257 * 0 = 0 ∧ 257 * 255 = 65535 ∧ ∀ i j : Nat, i < j → 257 * i < 257 * j) ∧
    SDL_CalculateGammaRamp curve (.finite 0) (some ramp)
      = some (fun i => if i < 256 then 0 else ramp i) ∧
    (gamma.ltZero = true → SDL_CalculateGammaRamp curve gamma (some ramp) = some ramp) ∧
    SDL_CalculateGammaRamp curve gamma none = none := by
  refine ⟨?_, ?_, ⟨rfl, rfl, fun i j hij => by omega⟩, ?_, ?_, ?_⟩
  · simp only [SDL_CalculateGammaRamp, CFloat.ltZero, CFloat.eqConst]
    norm_num
    funext i
    rw [assignEach_apply]
    by_cases hi : i < 256
    · rw [if_pos hi, if_pos hi]
      exact identity_ramp_entry i hi
    · rw [if_neg hi, if_neg hi]
  · set_option maxRecDepth 100000 in decide
  · simp only [SDL_CalculateGammaRamp, CFloat.ltZero, CFloat.eqConst]
    norm_num
    funext i
    rw [assignEach_apply]
  · intro hneg
    simp [SDL_CalculateGammaRamp, hneg]
  · unfold SDL_CalculateGammaRamp
    by_cases hneg : gamma.ltZero = true <;> simp [hneg]

/-- C25: `SDL_CreateRGBSurface` ignores its flags: for all arguments the
result is `SDL3_CreateSurface(width, height,
SDL3_MasksToPixelFormatEnum(depth, Rmask, Gmask, Bmask, Amask))`, so two
calls that differ only in flags give the same result; so it is for the call
of the test, with depth 32 and the masks `0xff0000`, `0xff00`, `0xff`, 0. -/
theorem C25_create_rgb_surface_ignores_flags {Surface : Type} (lib : SurfaceLibrary Surface)
    (flags flags' : Nat) (width height depth : Int) (Rmask Gmask Bmask Amask : Nat) :
    SDL_CreateRGBSurface lib flags width height depth Rmask Gmask Bmask Amask
      = lib.SDL3_CreateSurface width height
          (lib.SDL3_MasksToPixelFormatEnum depth Rmask Gmask Bmask Amask) ∧
    SDL_CreateRGBSurface lib flags width height depth Rmask Gmask Bmask Amask
      = SDL_CreateRGBSurface lib flags' width height depth Rmask Gmask Bmask Amask ∧
    SDL_CreateRGBSurface lib flags 128 128 32 0xff0000 0xff00 0xff 0
      = lib.SDL3_CreateSurface 128 128
          (lib.SDL3_MasksToPixelFormatEnum 32 0xff0000 0xff00 0xff 0) :=
  ⟨rfl, rfl, rfl⟩

/-! ## Round trips and the event queue -/

/-- The code at the failing input of C26: built against SDL3 headers with a
128-byte event union and a 16-byte header, `Event2to3` copies 112 bytes from
behind the legacy header, where the legacy event has 48.  Two legacy events
with the same bytes, followed in memory by different bytes, convert to
current events that differ at payload byte 48. -/
theorem C26_event2to3_reads_past_legacy_event :
    Event2to3_count target64 = 112 ∧
    sizeof_SDL2_Event target64.ptrSize - sizeof_SDL2_CommonEvent = 48 ∧
    ¬ (Event2to3_count target64 ≤ sizeof_SDL2_Event target64.ptrSize - sizeof_SDL2_CommonEvent) ∧
    SDL2_Event.SameObject target64 (eventThen 0) (eventThen 255) ∧
    (Event2to3 target64 (eventThen 0) scratch3).payload 48 = 0 ∧
    (Event2to3 target64 (eventThen 255) scratch3).payload 48 = 255 := by
  have h48 : sizeof_SDL2_Event target64.ptrSize - sizeof_SDL2_CommonEvent = 48 :=
    Event3to2_count_target64
  have h112 : Event2to3_count target64 = 112 := by decide
  refine ⟨h112, h48, by rw [h48, h112]; decide, ⟨rfl, ?_⟩, ?_, ?_⟩
  · intro i hi
    rw [Event3to2_count_target64] at hi
    simp [eventThen, hi]
  · simp [Event2to3, SDL3_memcpy, h112, eventThen]
  · simp [Event2to3, SDL3_memcpy, h112, eventThen]

/-- C27: for every legacy event `E` with a 32-bit timestamp, on a target
whose current events have at least as many bytes after the header as legacy
events, `Event3to2(Event2to3(E))` has the type of `E`, the timestamp of `E`
and, at every offset of the union after the header, the payload byte of `E`,
whatever the two output buffers held. -/
theorem C27_legacy_round_trip (T : Target) (E : SDL2_Event) (event3 : SDL_Event)
    (event2 : SDL2_Event) (hT : E.common.timestamp < 2 ^ 32)
    (hsize : Event3to2_count T ≤ Event2to3_count T) :
    (Event3to2 T (Event2to3 T E event3) event2).type = E.type ∧
    (Event3to2 T (Event2to3 T E event3) event2).common.timestamp = E.common.timestamp ∧
    (∀ i, i < sizeof_SDL2_Event T.ptrSize - sizeof_SDL2_CommonEvent →
      (Event3to2 T (Event2to3 T E event3) event2).payload i = E.payload i) ∧
    SDL2_Event.SameObject T (Event3to2 T (Event2to3 T E event3) event2) E := by
  have hts : (Event3to2 T (Event2to3 T E event3) event2).common.timestamp
      = E.common.timestamp := by
    have hlt : E.common.timestamp * 1000000 < 2 ^ 64 := by
      norm_num at hT ⊢
      omega
    simp only [Event3to2, Event2to3, SDL_NS_TO_MS, SDL_MS_TO_NS_exact _ hT]
    rw [Nat.mod_eq_of_lt hlt, Nat.mul_div_cancel _ (by norm_num), Nat.mod_eq_of_lt hT]
  have hpay : ∀ i, i < Event3to2_count T →
      (Event3to2 T (Event2to3 T E event3) event2).payload i = E.payload i := by
    intro i hi
    have hi' : i < Event2to3_count T := lt_of_lt_of_le hi hsize
    simp only [Event3to2, Event2to3, SDL3_memcpy, hi, hi', if_true]
  have hcommon : (Event3to2 T (Event2to3 T E event3) event2).common = E.common := by
    have h1 : (Event3to2 T (Event2to3 T E event3) event2).common.type = E.common.type := rfl
    cases hE : E.common with
    | mk ty ts =>
      rw [hE] at h1 hts
      cases hR : (Event3to2 T (Event2to3 T E event3) event2).common with
      | mk ty' ts' =>
        rw [hR] at h1 hts
        simp only at h1 hts
        rw [h1, hts]
  exact ⟨rfl, hts, hpay, hcommon, hpay⟩

/-- On the 64-bit target, the legacy key event stamped 5000 ms comes back
with its header and its 48 payload bytes. -/
theorem C27_legacy_round_trip_witness :
    (sampleEvent2 5000).common.timestamp < 2 ^ 32 ∧
    Event3to2_count target64 ≤ Event2to3_count target64 ∧
    SDL2_Event.SameObject target64
      (Event3to2 target64 (Event2to3 target64 (sampleEvent2 5000) scratch3) scratch2)
      (sampleEvent2 5000) :=
  have hsize : Event3to2_count target64 ≤ Event2to3_count target64 := by
    rw [Event3to2_count_target64]
    decide
  ⟨by decide, hsize,
    (C27_legacy_round_trip target64 (sampleEvent2 5000) scratch3 scratch2 (by decide)
      hsize).2.2.2⟩

/-- C28: for every current event whose timestamp `N` has `N / 1000000` below
`2 ^ 32`, the timestamp `N'` after `Event3to2` and then `Event2to3` is at
most `N`, less than 1,000,000 below it, and equal to `N` exactly when `N` is
a multiple of 1,000,000. -/
theorem C28_down_then_up_loses_sub_millisecond (T : Target) (event3 out3 : SDL_Event)
    (out2 : SDL2_Event) (hN : event3.common.timestamp / 1000000 < 2 ^ 32) :
    (Event2to3 T (Event3to2 T event3 out2) out3).common.timestamp
      ≤ event3.common.timestamp ∧
    event3.common.timestamp - (Event2to3 T (Event3to2 T event3 out2) out3).common.timestamp
      < 1000000 ∧
    ((Event2to3 T (Event3to2 T event3 out2) out3).common.timestamp = event3.common.timestamp
      ↔ event3.common.timestamp % 1000000 = 0) := by
  have hval : (Event2to3 T (Event3to2 T event3 out2) out3).common.timestamp
      = event3.common.timestamp / 1000000 * 1000000 := by
    have hlt : event3.common.timestamp / 1000000 * 1000000 < 2 ^ 64 := by
      norm_num at hN ⊢
      omega
    simp only [Event2to3, Event3to2, SDL_NS_TO_MS]
    rw [Nat.mod_eq_of_lt hN, SDL_MS_TO_NS_exact _ hN, Nat.mod_eq_of_lt hlt]
  rw [hval]
  omega

/-- A timestamp of 5,000,999,999 ns comes back as 5,000,000,000 ns. -/
theorem C28_down_then_up_loses_sub_millisecond_witness :
    (sampleEvent3 5000999999).common.timestamp / 1000000 < 2 ^ 32 ∧
    (Event2to3 target64 (Event3to2 target64 (sampleEvent3 5000999999) scratch2)
      scratch3).common.timestamp = 5000000000 ∧
    (sampleEvent3 5000999999).common.timestamp
      - (Event2to3 target64 (Event3to2 target64 (sampleEvent3 5000999999) scratch2)
          scratch3).common.timestamp < 1000000 :=
  ⟨by decide, by decide,
    (C28_down_then_up_loses_sub_millisecond target64 (sampleEvent3 5000999999) scratch3
      scratch2 (by decide)).2.1⟩

/-- C29: for every registry and every pair `(f, u)`, `SDL_DelEventWatch(f, u)`
after a successful `SDL_AddEventWatch(f, u)` gives back exactly the registry
from before, also when the watcher list already holds entries equal to
`(f, u)`; the assertion evaluated on the way holds. -/
theorem C29_add_then_del_identity (f u : Nat) (st : Registry) :
    SDL_DelEventWatch f u (SDL_AddEventWatch true f u st) = st ∧
    (SDL_DelEventWatch f u (SDL_AddEventWatch true f u st)).EventWatchers2
      = st.EventWatchers2 ∧
    SDL_DelEventWatch_assert f u (SDL_AddEventWatch true f u st) = true := by
  have hloop : SDL_DelEventWatch_loop f u none [] (⟨f, u⟩ :: st.EventWatchers2)
      = (st.EventWatchers2, true) := by
    simp [SDL_DelEventWatch_loop]
  refine ⟨?_, ?_, ?_⟩
  · cases st
    simp [SDL_DelEventWatch, SDL_AddEventWatch, SDL_DelEventWatch_loop]
  · simp [SDL_DelEventWatch, SDL_AddEventWatch, SDL_DelEventWatch_loop]
  · simp only [SDL_DelEventWatch_assert, SDL_AddEventWatch, if_true, hloop]

theorem SDL_PeepEvents_get_apply (T : Target) (events3 : Events3) (n : Nat)
    (events2 : Events2) (i : Nat) :
    SDL_PeepEvents_get T events3 n events2 i
      = if i < n then Event3to2 T (events3 i) (events2 i) else events2 i := by
  induction n generalizing i with
  | zero => simp [SDL_PeepEvents_get]
  | succ n ih =>
    simp only [SDL_PeepEvents_get]
    by_cases h : i = n
    · subst h
      rw [if_pos rfl, if_pos (Nat.lt_succ_self _), ih, if_neg (Nat.lt_irrefl _)]
    · rw [if_neg h, ih]
      by_cases hlt : i < n
      · rw [if_pos hlt, if_pos (by omega)]
      · rw [if_neg hlt, if_neg (by omega)]

theorem SDL_PeepEvents_add_apply (T : Target) (events2 : Events2) (n : Nat)
    (events3 : Events3) (i : Nat) :
    SDL_PeepEvents_add T events2 n events3 i
      = if i < n then Event2to3 T (events2 i) (events3 i) else events3 i := by
  induction n generalizing i with
  | zero => simp [SDL_PeepEvents_add]
  | succ n ih =>
    simp only [SDL_PeepEvents_add]
    by_cases h : i = n
    · subst h
      rw [if_pos rfl, if_pos (Nat.lt_succ_self _), ih, if_neg (Nat.lt_irrefl _)]
    · rw [if_neg h, ih]
      by_cases hlt : i < n
      · rw [if_pos hlt, if_pos (by omega)]
      · rw [if_neg hlt, if_neg (by omega)]

/-- The claim C30 fails on the code: when the temporary array cannot be
allocated, `SDL_PeepEvents` with an action other than `SDL_ADDEVENT` returns
the out-of-memory sentinel `-1` and never calls the underlying
`SDL3_PeepEvents`, whose result would have been 1. -/
theorem C30_failed_allocation_skips_the_call :
    (1 : Nat) ≠ SDL_ADDEVENT ∧
    (SDL_PeepEvents target64 samplePeep none sampleEvents2 4 1 0 0xFFFF).retval = -1 ∧
    (samplePeep garbage3 4 1 0 0xFFFF).1 = 1 ∧
    (SDL_PeepEvents target64 samplePeep none sampleEvents2 4 1 0 0xFFFF).retval
      ≠ (samplePeep garbage3 4 1 0 0xFFFF).1 ∧
    (SDL_PeepEvents target64 samplePeep none sampleEvents2 4 1 0 0xFFFF).passed.isNone
      = true := by
  refine ⟨by decide, rfl, rfl, by decide, rfl⟩

/-- C30, amended: when the temporary array is allocated, for every action
other than `SDL_ADDEVENT` `SDL_PeepEvents` returns the result `r` of the
underlying call and leaves in the caller's array `Event3to2` of the returned
event at every index below `r` and the old entry at every other index (so
nothing is written when `r ≤ 0`); for `SDL_ADDEVENT` it hands the underlying
call `Event2to3` of each of the `numevents` input events, in order, returns
its result and leaves the caller's array unchanged.  When the array cannot
be allocated, it returns the failure sentinel without calling the
underlying function and leaves the caller's array unchanged. -/
theorem C30_peep_events_converts (T : Target) (lib : PeepEvents3) (events3 : Events3)
    (events2 : Events2) (numevents : Int) (action minType maxType : Nat) :
    (action ≠ SDL_ADDEVENT →
      (SDL_PeepEvents T lib (some events3) events2 numevents action minType maxType).retval
        = (lib events3 numevents action minType maxType).1 ∧
      (∀ i : Nat,
        (SDL_PeepEvents T lib (some events3) events2 numevents action minType maxType).events2 i
          = if (i : Int) < (lib events3 numevents action minType maxType).1 then
              Event3to2 T ((lib events3 numevents action minType maxType).2 i) (events2 i)
            else events2 i)) ∧
    (action = SDL_ADDEVENT →
      (SDL_PeepEvents T lib (some events3) events2 numevents action minType maxType).passed
        = some (fun (i : Nat) => if (i : Int) < numevents then Event2to3 T (events2 i) (events3 i)
            else events3 i) ∧
      (SDL_PeepEvents T lib (some events3) events2 numevents action minType maxType).retval
        = (lib (fun (i : Nat) => if (i : Int) < numevents then Event2to3 T (events2 i) (events3 i)
            else events3 i) numevents action minType maxType).1 ∧
      (SDL_PeepEvents T lib (some events3) events2 numevents action minType maxType).events2
        = events2) ∧
    SDL_PeepEvents T lib none events2 numevents action minType maxType
      = ⟨-1, events2, none⟩ := by
  have hadd : SDL_PeepEvents_add T events2 numevents.toNat events3
      = fun (i : Nat) => if (i : Int) < numevents then Event2to3 T (events2 i) (events3 i)
          else events3 i := by
    funext i
    rw [SDL_PeepEvents_add_apply]
    by_cases hi : i < numevents.toNat
    · rw [if_pos hi, if_pos (by omega)]
    · rw [if_neg hi, if_neg (by omega)]
  refine ⟨?_, ?_, rfl⟩
  · intro ha
    refine ⟨?_, ?_⟩
    · simp only [SDL_PeepEvents, if_neg ha]
    · intro i
      simp only [SDL_PeepEvents, if_neg ha]
      rw [SDL_PeepEvents_get_apply]
      by_cases hi : i < (lib events3 numevents action minType maxType).1.toNat
      · rw [if_pos hi, if_pos (by omega)]
      · rw [if_neg hi, if_neg (by omega)]
  · intro ha
    refine ⟨?_, ?_, ?_⟩
    · simp only [SDL_PeepEvents, if_pos ha, hadd]
    · simp only [SDL_PeepEvents, if_pos ha, hadd]
    · simp only [SDL_PeepEvents, if_pos ha]

end Sdl2Compat
